import Mathlib

/-!
Survey / voting backend: vote engine and lifecycle manager

A shallow embedding of `controllers/surveyController.js`, `models/Survey.js`,
`middleware/authMiddleware.js` and `routes/surveyRoutes.js`.

Modelling conventions

* A Mongo `ObjectId` is a natural number; ids are compared by value, as
  `MongooseArray.includes`, `DocumentArray.id` and `toString() !== toString()` do.
  The handlers `castVote`, `deleteSurvey`, ... take the id that `req.params.id` cast
  to; `withId` puts the cast in front of them, with its failure path.  An `optionId`
  that does not cast matches no sub-document, like an id that no option carries.
* A `Date` is its millisecond timestamp, an integer; `new Date()` is an explicit
  argument `now` of each handler that reads the clock.
* The survey collection is a list of documents with a primary key `_id`.
  `findById`, `save`, `insert` and `deleteOne` are the four store operations the
  controller uses.  A handler function runs a whole request without interruption;
  requests that overlap are modelled in the section on interleaved vote requests.
* `req.io.emit` calls are collected, in order, in the `events` field of the outcome.
* `req.user` is an optional principal: `protect` stores whatever `User.findById`
  returned, which is `null` when the account no longer exists.
* Bookkeeping fields maintained by Mongoose itself (`createdAt`, `updatedAt`, `__v`)
  are not part of the model.
-/

namespace VotingApp

/-- A Mongo object id. -/
abbrev ObjectId := Nat

/-- A document of `OptionSchema`: one selectable answer with its counter. -/
structure OptionDoc where
  _id : ObjectId
  optionText : String
  votes : Nat
deriving DecidableEq, Repr

/-- A document of `SurveySchema`. -/
structure Survey where
  _id : ObjectId
  title : String
  description : Option String
  category : String
  resultsVisible : Bool
  options : List OptionDoc
  createdBy : ObjectId
  deadline : Int
  voters : List ObjectId
deriving DecidableEq, Repr

/-- A document of `UserSchema`, as loaded by `protect` (password excluded). -/
structure User where
  _id : ObjectId
  name : String
  email : String
  role : String
deriving DecidableEq, Repr

/-- The survey collection. -/
abbrev Store := List Survey

/-- A call of `req.io.emit(name, payload)`. -/
inductive Event where
  | newSurvey (s : Survey)
  | voteUpdate (s : Survey)
  | surveyDeleted (id : ObjectId)
  | surveyClosed
deriving DecidableEq, Repr

/-- The JSON body of a response. -/
inductive Body where
  | message (m : String)
  | survey (s : Survey)
  | populated (s : Survey) (owner : Option (ObjectId × String))
deriving DecidableEq, Repr

/-- The result of `res.status(code).json(body)`; `res.json(body)` has status 200. -/
structure Response where
  status : Nat
  body : Body
deriving DecidableEq, Repr

/-- The argument of `sendEmail` in `castVote`: recipient, subject and the two values
interpolated in the html text (survey title, option text). -/
structure Mail where
  email : String
  subject : String
  surveyTitle : String
  optionText : String
deriving DecidableEq, Repr

/-- What one handler run does: the response, the store afterwards, the broadcast
events in emission order, and the confirmation mail handed to `sendEmail`. -/
structure Outcome where
  response : Response
  store : Store
  events : List Event
  mail : Option Mail
deriving DecidableEq, Repr

/-! ## Store operations -/

/-- The operation `Survey.findById(id)`. -/
def findById (st : Store) (id : ObjectId) : Option Survey :=
  st.find? (fun s => s._id == id)

/-- The operation `doc.save()` on a document loaded from the store: the stored
document with the same `_id` is replaced. -/
def save : Store → Survey → Store
  | [], _ => []
  | s :: rest, d => if s._id = d._id then d :: rest else s :: save rest d

/-- The operation `doc.save()` on a new document: it is added to the collection. -/
def insert (st : Store) (d : Survey) : Store := st ++ [d]

/-- The operation `doc.deleteOne()`. -/
def deleteOne (st : Store) (d : Survey) : Store :=
  st.filter (fun s => s._id != d._id)

/-! ## Responses -/

/-- The response `res.status(code).json({ message })`. -/
def msg (code : Nat) (m : String) : Response := ⟨code, Body.message m⟩

/-- A handler run that only answers with a message: nothing stored, nothing emitted. -/
def reject (st : Store) (code : Nat) (m : String) : Outcome :=
  { response := msg code m, store := st, events := [], mail := none }

def notFound : Response := msg 404 "Survey not found"
def expired : Response := msg 400 "This survey has already expired."
def alreadyVoted : Response := msg 400 "You have already voted in this survey."
def invalidOption : Response := msg 404 "Invalid voting option."
def notAuthorized : Response := msg 401 "User not authorized"
def notAdmin : Response := msg 401 "Not authorized as an admin"
def serverError : Response := msg 500 "Server Error"

/-! ## Vote engine -/

/-- The lookup `survey.options.id(optionId)`: the first sub-document with that id. -/
def optionById (opts : List OptionDoc) (optionId : ObjectId) : Option OptionDoc :=
  opts.find? (fun o => o._id == optionId)

/-- The effect of `option.votes++` on the options array, `option` being the
sub-document returned by `survey.options.id(optionId)`. -/
def incVotes : List OptionDoc → ObjectId → List OptionDoc
  | [], _ => []
  | o :: rest, optionId =>
    if o._id = optionId then { o with votes := o.votes + 1 } :: rest
    else o :: incVotes rest optionId

/-- The handler `castVote` (`POST /api/surveys/:id/vote`).  `user` is `req.user`,
`id` is `req.params.id`, `optionId` is `req.body.optionId`, `now` the value of
`new Date()` read in the deadline check.  Reading `req.user._id` when `req.user` is
`null` throws, which the `catch` turns into the 500 answer. -/
def castVote (now : Int) (user : Option User) (id optionId : ObjectId)
    (st : Store) : Outcome :=
  match findById st id with
  | none => reject st 404 "Survey not found"
  | some survey =>
    if survey.deadline < now then reject st 400 "This survey has already expired."
    else
      match user with
      | none => reject st 500 "Server Error"
      | some u =>
        if u._id ∈ survey.voters then
          reject st 400 "You have already voted in this survey."
        else
          match optionById survey.options optionId with
          | none => reject st 404 "Invalid voting option."
          | some option =>
            let updatedSurvey : Survey :=
              { survey with
                options := incVotes survey.options optionId
                voters := survey.voters ++ [u._id] }
            { response := ⟨200, Body.survey updatedSurvey⟩
              store := save st updatedSurvey
              events := [Event.voteUpdate updatedSurvey]
              mail := some
                { email := u.email
                  subject := "Your Vote Has Been Recorded!"
                  surveyTitle := survey.title
                  optionText := option.optionText } }

/-! ## Lifecycle manager -/

/-- The fields `createSurvey` destructures from `req.body`; a field that is absent
from the JSON body is `none`. -/
structure CreateBody where
  title : Option String
  description : Option String
  options : Option (List String)
  deadline : Option Int
  category : Option String
  resultsVisible : Option Bool
deriving DecidableEq, Repr

/-- The `enum` of the `category` path of `SurveySchema`. -/
def categories : List String :=
  ["Technology", "Lifestyle", "Entertainment", "General", "Politics"]

/-- The expression `options.map(opt => ({ optionText: opt, votes: 0 }))`; the
sub-document at position `i` receives the generated id `optIds i`. -/
def mkOptions (optIds : Nat → ObjectId) : Nat → List String → List OptionDoc
  | _, [] => []
  | i, opt :: rest =>
    { _id := optIds i, optionText := opt, votes := 0 } :: mkOptions optIds (i + 1) rest

/-- The largest time value of a `Date`, in milliseconds either side of the epoch;
a number beyond it does not cast to a valid `Date`. -/
def maxTimeValue : Int := 8640000000000000

/-- Schema validation run by `save`: `title` and every `optionText` are required
(a required string may not be empty), `category` is one of the enumerated values and
`deadline` is a valid `Date`. -/
def validate (s : Survey) : Bool :=
  s.title != "" && categories.contains s.category &&
    s.options.all (fun o => o.optionText != "") &&
    decide (-maxTimeValue ≤ s.deadline) && decide (s.deadline ≤ maxTimeValue)

/-- The handler `createSurvey` (`POST /api/surveys`).  `newId` and `optIds` are the
ids generated for the document and its options.  Every exception (`options` absent,
`req.user` null, a validation failure, a duplicate key) ends in the 400 answer. -/
def createSurvey (newId : ObjectId) (optIds : Nat → ObjectId) (user : Option User)
    (body : CreateBody) (st : Store) : Outcome :=
  match body.options, user, body.title, body.deadline with
  | some options, some u, some title, some deadline =>
    let survey : Survey :=
      { _id := newId
        title := title
        description := body.description
        category := body.category.getD "General"
        resultsVisible := body.resultsVisible.getD false
        options := mkOptions optIds 0 options
        createdBy := u._id
        deadline := deadline
        voters := [] }
    if validate survey && (findById st newId).isNone then
      { response := ⟨201, Body.survey survey⟩
        store := insert st survey
        events := [Event.newSurvey survey]
        mail := none }
    else reject st 400 "Error creating survey"
  | _, _, _, _ => reject st 400 "Error creating survey"

/-- The handler `toggleResultsVisibility` (`PATCH /api/surveys/:id/toggle-visibility`). -/
def toggleResultsVisibility (user : Option User) (id : ObjectId) (st : Store) : Outcome :=
  match findById st id with
  | none => reject st 404 "Survey not found"
  | some survey =>
    match user with
    | none => reject st 500 "Server Error"
    | some u =>
      if survey.createdBy ≠ u._id then reject st 401 "User not authorized"
      else
        let updatedSurvey : Survey :=
          { survey with resultsVisible := !survey.resultsVisible }
        { response := ⟨200, Body.survey updatedSurvey⟩
          store := save st updatedSurvey
          events := [Event.voteUpdate updatedSurvey]
          mail := none }

/-- The handler `deleteSurvey` (`DELETE /api/surveys/:id`). -/
def deleteSurvey (user : Option User) (id : ObjectId) (st : Store) : Outcome :=
  match findById st id with
  | none => reject st 404 "Survey not found"
  | some survey =>
    match user with
    | none => reject st 500 "Server Error"
    | some u =>
      if survey.createdBy ≠ u._id then reject st 401 "User not authorized"
      else
        { response := msg 200 "Survey removed successfully"
          store := deleteOne st survey
          events := [Event.surveyDeleted id]
          mail := none }

/-- The handler `closeSurvey` (`PATCH /api/surveys/:id/close`); `now` is the value of
`new Date()` assigned to `survey.deadline`. -/
def closeSurvey (now : Int) (user : Option User) (id : ObjectId) (st : Store) : Outcome :=
  match findById st id with
  | none => reject st 404 "Survey not found"
  | some survey =>
    match user with
    | none => reject st 500 "Server Error"
    | some u =>
      if survey.createdBy ≠ u._id then reject st 401 "User not authorized"
      else
        let updatedSurvey : Survey := { survey with deadline := now }
        { response := ⟨200, Body.survey updatedSurvey⟩
          store := save st updatedSurvey
          events := [Event.surveyDeleted updatedSurvey._id, Event.surveyClosed]
          mail := none }

/-- The lookup `User.findById(id)` on the user collection. -/
def findUser (users : List User) (id : ObjectId) : Option User :=
  users.find? (fun u => u._id == id)

/-- The handler `getSurveyById` (`GET /api/surveys/:id`); `populate('createdBy', 'name')`
replaces the owner id by the owner's id and name, or by `null` when no such user. -/
def getSurveyById (users : List User) (id : ObjectId) (st : Store) : Outcome :=
  match findById st id with
  | some survey =>
    { response :=
        ⟨200, Body.populated survey ((findUser users survey.createdBy).map
          (fun u => (u._id, u.name)))⟩
      store := st
      events := []
      mail := none }
  | none => reject st 404 "Survey not found"

/-! ## Middleware and routes -/

/-- What a middleware does with the request: answer it, or hand it on with `req.user`. -/
inductive MwStep where
  | respond (r : Response)
  | next (user : Option User)
deriving DecidableEq, Repr

/-- The value of `s.split(' ')` on the characters of `s`. -/
def splitSpace : List Char → List (List Char)
  | [] => [[]]
  | c :: cs =>
    if c = ' ' then [] :: splitSpace cs
    else
      match splitSpace cs with
      | [] => [[c]]
      | w :: ws => (c :: w) :: ws

/-- The middleware `protect`.  `verify` stands for `jwt.verify(·, JWT_SECRET)` followed
by reading `decoded.id`: `none` when verification throws (it always throws on an absent
or empty token).  The steps are the calls of `res.status(401).json(..)` and of `next()`
the middleware makes, in the order it makes them: those of the `try`/`catch` block
first, then the one of the final `if (!token)`. -/
def protect (verify : String → Option ObjectId) (users : List User)
    (authorization : Option String) : List MwStep :=
  let attempt : Option String × List MwStep :=
    match authorization with
    | none => (none, [])
    | some h =>
      if h ≠ "" ∧ "Bearer".toList.isPrefixOf h.toList then
        match (splitSpace h.toList)[1]? with
        | none => (none, [MwStep.respond (msg 401 "Not authorized, token failed")])
        | some t =>
          let token := String.mk t
          if token = "" then
            (some token, [MwStep.respond (msg 401 "Not authorized, token failed")])
          else
            match verify token with
            | none => (some token, [MwStep.respond (msg 401 "Not authorized, token failed")])
            | some uid => (some token, [MwStep.next (findUser users uid)])
      else (none, [])
  match attempt.1 with
  | none => attempt.2 ++ [MwStep.respond (msg 401 "Not authorized, no token")]
  | some token =>
    if token = "" then attempt.2 ++ [MwStep.respond (msg 401 "Not authorized, no token")]
    else attempt.2

/-- The middleware `admin`, followed by the handler `h` when it calls `next()`. -/
def admin (h : Option User → Store → Outcome) (user : Option User) (st : Store) : Outcome :=
  match user with
  | some u => if u.role = "admin" then h user st else reject st 401 "Not authorized as an admin"
  | none => reject st 401 "Not authorized as an admin"

/-- What a route does with one request: every call of `res.status(..).json(..)` made,
in order, the store afterwards and the events emitted.  The client receives the first
response only: once it is sent, a further call throws (headers already sent). -/
structure RouteOutcome where
  responses : List Response
  store : Store
  events : List Event
deriving DecidableEq, Repr

/-- The response that reaches the client, if any. -/
def RouteOutcome.sent (o : RouteOutcome) : Option Response := o.responses.head?

/-- Runs the steps of `protect`, passing the request to the rest of the chain `h`
at each `next()`. -/
def runChain (h : Option User → Store → Outcome) : List MwStep → Store → RouteOutcome
  | [], st => { responses := [], store := st, events := [] }
  | MwStep.respond r :: rest, st =>
    let o := runChain h rest st
    { o with responses := r :: o.responses }
  | MwStep.next user :: rest, st =>
    let o₁ := h user st
    let o₂ := runChain h rest o₁.store
    { responses := o₁.response :: o₂.responses
      store := o₂.store
      events := o₁.events ++ o₂.events }

/-- The requests on `/:id`, `/:id/vote`, `/:id/close` and `/:id/toggle-visibility`. -/
inductive IdRequest where
  | get
  | delete
  | vote (optionId : ObjectId)
  | close
  | toggleVisibility
deriving DecidableEq, Repr

/-- The environment of a request: the token oracle, the user collection, the clock. -/
structure Env where
  verify : String → Option ObjectId
  users : List User
  now : Int

/-- The route parameter `req.params.id`, a string of the URL: either it casts to an
object id, or it does not (as in `GET /api/surveys/abc`). -/
inductive IdParam where
  | valid (id : ObjectId)
  | invalid (raw : String)
deriving DecidableEq, Repr

/-- The first statement of each handler of a route with an `:id` parameter,
`await Survey.findById(req.params.id)` inside `try`.  When the parameter does not cast
to an object id the query rejects with a cast error and the `catch` of the handler
answers 500 "Server Error"; otherwise the handler `h` goes on with the cast id. -/
def withId (p : IdParam) (h : ObjectId → Store → Outcome) (st : Store) : Outcome :=
  match p with
  | IdParam.valid id => h id st
  | IdParam.invalid _ => reject st 500 "Server Error"

/-- The answer `withId` gives when the handler behind it answers 404 "Survey not
found" for every id the parameter can cast to: that 404 when the parameter casts, the
500 of the `catch` when it does not. -/
def absentAnswer : IdParam → Response
  | IdParam.valid _ => notFound
  | IdParam.invalid _ => serverError

/-- The routing table of `surveyRoutes.js` for the routes with an `:id` parameter:
each request goes through the middleware chain registered for its route. -/
def route (env : Env) (authorization : Option String) (p : IdParam) (st : Store) :
    IdRequest → RouteOutcome
  | IdRequest.get =>
    let o := withId p (fun id s => getSurveyById env.users id s) st
    { responses := [o.response], store := o.store, events := o.events }
  | IdRequest.delete =>
    runChain (admin (fun u s => withId p (fun id s' => deleteSurvey u id s') s))
      (protect env.verify env.users authorization) st
  | IdRequest.vote optionId =>
    runChain (fun u s => withId p (fun id s' => castVote env.now u id optionId s') s)
      (protect env.verify env.users authorization) st
  | IdRequest.close =>
    runChain (admin (fun u s => withId p (fun id s' => closeSurvey env.now u id s') s))
      (protect env.verify env.users authorization) st
  | IdRequest.toggleVisibility =>
    runChain (admin (fun u s => withId p (fun id s' => toggleResultsVisibility u id s') s))
      (protect env.verify env.users authorization) st

/-! ## Sequential executions -/

/-- One call of a state-changing handler, with everything it reads from outside.  (A
request whose `:id` does not cast never reaches the store: `withId` answers it.) -/
inductive Call where
  | create (newId : ObjectId) (optIds : Nat → ObjectId) (user : Option User)
      (body : CreateBody)
  | vote (now : Int) (user : Option User) (id optionId : ObjectId)
  | close (now : Int) (user : Option User) (id : ObjectId)
  | toggle (user : Option User) (id : ObjectId)
  | delete (user : Option User) (id : ObjectId)

/-- The outcome of one call on a store. -/
def Call.exec (c : Call) (st : Store) : Outcome :=
  match c with
  | Call.create newId optIds user body => createSurvey newId optIds user body st
  | Call.vote now user id optionId => castVote now user id optionId st
  | Call.close now user id => closeSurvey now user id st
  | Call.toggle user id => toggleResultsVisibility user id st
  | Call.delete user id => deleteSurvey user id st

/-- The store after a sequence of calls, run one after the other. -/
def runCalls (st : Store) : List Call → Store
  | [] => st
  | c :: rest => runCalls (c.exec st).store rest

/-- Sum of the vote counters of an options array. -/
def totalVotes (opts : List OptionDoc) : Nat :=
  (opts.map (fun o => o.votes)).sum

/-- The consistency condition `sum(option.votes) == |voters|` of one survey. -/
def Consistent (s : Survey) : Prop :=
  totalVotes s.options = s.voters.length

/-! ## Interleaved vote requests

`castVote` is an `async` function: it is suspended at `await Survey.findById(..)` and at
`await survey.save()`, and other requests run in between.  The first suspension comes
before anything is read; the second splits the handler in two atomic parts, the read
part (`findById` returns, the four checks, `option.votes++`, `voters.push`) and the save
part (`save`, `emit`, the mail, the response). -/

/-- One `castVote` request on a given survey by an authenticated principal: the clock
reading of its deadline check, `req.user` and `req.body.optionId`. -/
structure VoteReq where
  now : Int
  user : User
  optionId : ObjectId
deriving DecidableEq, Repr

/-- The in-memory state of a `castVote` run suspended at `await survey.save()`: the
document as `findById` loaded it, the same document after `option.votes++` and
`voters.push`, and the mail that will be handed to `sendEmail`. -/
structure Pending where
  loaded : Survey
  updated : Survey
  mail : Mail
deriving DecidableEq, Repr

/-- The read part of `castVote` (lines 106 to 117), run on the store as it is when
`findById` returns: the response of a failed check, or the pending in-memory state. -/
def castVoteRead (now : Int) (user : Option User) (id optionId : ObjectId)
    (st : Store) : Except Response Pending :=
  match findById st id with
  | none => Except.error (msg 404 "Survey not found")
  | some survey =>
    if survey.deadline < now then Except.error (msg 400 "This survey has already expired.")
    else
      match user with
      | none => Except.error (msg 500 "Server Error")
      | some u =>
        if u._id ∈ survey.voters then
          Except.error (msg 400 "You have already voted in this survey.")
        else
          match optionById survey.options optionId with
          | none => Except.error (msg 404 "Invalid voting option.")
          | some option =>
            Except.ok
              { loaded := survey
                updated :=
                  { survey with
                    options := incVotes survey.options optionId
                    voters := survey.voters ++ [u._id] }
                mail :=
                  { email := u.email
                    subject := "Your Vote Has Been Recorded!"
                    surveyTitle := survey.title
                    optionText := option.optionText } }

/-- The save part of `castVote` (lines 118 to 142), run on the store as it is when the
save is performed.  What `save` does when the stored document has changed since it was
loaded is decided by Mongoose, not by the controller, so both behaviours are covered:
with `versionCheck = false` the stored document is replaced by the in-memory one (the
`save` of this file); with `versionCheck = true` the save is refused when the stored
document is no longer the one that was loaded, `save` throws and the `catch` answers
500 "Server Error". -/
def castVoteSave (versionCheck : Bool) (pd : Pending) (st : Store) : Outcome :=
  if versionCheck && (findById st pd.loaded._id != some pd.loaded) then
    reject st 500 "Server Error"
  else
    { response := ⟨200, Body.survey pd.updated⟩
      store := save st pd.updated
      events := [Event.voteUpdate pd.updated]
      mail := some pd.mail }

/-- A scheduling step: request number `i` runs its read part, or its save part. -/
inductive Op where
  | read (i : Nat)
  | save (i : Nat)
deriving DecidableEq, Repr

/-- The shared store, the in-memory state of each suspended request, and the
responses sent so far, each with the number of its request. -/
structure Conc where
  store : Store
  pending : Nat → Option Pending
  responses : List (Nat × Response)

/-- The state before any request has run. -/
def Conc.init (st : Store) : Conc :=
  { store := st, pending := fun _ => none, responses := [] }

/-- One scheduling step of the vote requests `reqs` on the survey `id`. -/
def Conc.step (versionCheck : Bool) (id : ObjectId) (reqs : List VoteReq) (c : Conc) :
    Op → Conc
  | Op.read i =>
    match reqs[i]? with
    | none => c
    | some r =>
      match castVoteRead r.now (some r.user) id r.optionId c.store with
      | Except.error resp => { c with responses := c.responses ++ [(i, resp)] }
      | Except.ok pd => { c with pending := fun j => if j = i then some pd else c.pending j }
  | Op.save i =>
    match c.pending i with
    | none => c
    | some pd =>
      { store := (castVoteSave versionCheck pd c.store).store
        pending := fun j => if j = i then none else c.pending j
        responses := c.responses ++ [(i, (castVoteSave versionCheck pd c.store).response)] }

/-- Runs a schedule, step by step. -/
def Conc.run (versionCheck : Bool) (id : ObjectId) (reqs : List VoteReq) :
    Conc → List Op → Conc
  | c, [] => c
  | c, op :: ops => Conc.run versionCheck id reqs (Conc.step versionCheck id reqs c op) ops

/-- An interleaving of `n` requests: every request runs its read part once and its
save part once, the read before the save, and nothing else is scheduled. -/
def isInterleaving (n : Nat) (ops : List Op) : Bool :=
  (List.range n).all (fun i =>
    ops.count (Op.read i) == 1 && ops.count (Op.save i) == 1 &&
      decide (ops.indexOf (Op.read i) < ops.indexOf (Op.save i))) &&
  ops.all (fun op =>
    match op with
    | Op.read i => decide (i < n)
    | Op.save i => decide (i < n))

/-- The schedule in which the requests `k`, `k + 1`, ..., `k + n - 1` take effect one
after the other: each one reads and saves before the next one reads. -/
def serialFrom : Nat → Nat → List Op
  | _, 0 => []
  | k, n + 1 => Op.read k :: Op.save k :: serialFrom (k + 1) n

/-- The schedule in which the `n` requests take effect one after the other. -/
def serial (n : Nat) : List Op := serialFrom 0 n

/-- The property of the specification, in its words: `N` concurrent vote requests from
`N` distinct principals on the same survey, all before its deadline and each naming an
option of the survey, under every interleaving of their reads and saves, leave the
survey with exactly `N` voters added and exactly `N` vote increments in total. -/
def NoLostUpdates (versionCheck : Bool) : Prop :=
  ∀ (reqs : List VoteReq) (id : ObjectId) (st : Store) (S : Survey) (ops : List Op),
    findById st id = some S →
    (∀ r ∈ reqs, ¬ S.deadline < r.now ∧ r.user._id ∉ S.voters ∧
      (optionById S.options r.optionId).isSome) →
    (reqs.map (fun r => r.user._id)).Nodup →
    isInterleaving reqs.length ops = true →
    ∃ S', findById (Conc.run versionCheck id reqs (Conc.init st) ops).store id = some S' ∧
      S'.voters.length = S.voters.length + reqs.length ∧
      totalVotes S'.options = totalVotes S.options + reqs.length

/-! ## The precondition order as the specification words it -/

/-- The error the specification of `castVote` announces, following its wording:
the first that applies of NotFound (survey missing), Expired (deadline not in the
future, that is `deadline ≤ now`), AlreadyVoted (principal in `voters`) and
InvalidOption (`optionId` not in the survey); `none` when no precondition fails. -/
def specFirstError (now : Int) (u : User) (id optionId : ObjectId) (st : Store) :
    Option Response :=
  match findById st id with
  | none => some notFound
  | some S =>
    if S.deadline ≤ now then some expired
    else if u._id ∈ S.voters then some alreadyVoted
    else if (optionById S.options optionId).isNone then some invalidOption
    else none

/-! ## Sample data -/

/-- An ordinary user. -/
def alice : User := { _id := 1, name := "Alice", email := "alice@example.org", role := "user" }

/-- An administrator, owner of `redBlue`. -/
def bob : User := { _id := 2, name := "Bob", email := "bob@example.org", role := "admin" }

/-- A second administrator, who owns no survey. -/
def carol : User := { _id := 3, name := "Carol", email := "carol@example.org", role := "admin" }

/-- A survey with the options Red and Blue, no votes, deadline at time 1000. -/
def redBlue : Survey :=
  { _id := 10
    title := "Favourite colour?"
    description := none
    category := "General"
    resultsVisible := false
    options := [{ _id := 100, optionText := "Red", votes := 0 },
                { _id := 101, optionText := "Blue", votes := 0 }]
    createdBy := 2
    deadline := 1000
    voters := [] }

/-- The survey `redBlue` after Alice voted Blue. -/
def redBlueVoted : Survey :=
  { redBlue with
    options := [{ _id := 100, optionText := "Red", votes := 0 },
                { _id := 101, optionText := "Blue", votes := 1 }]
    voters := [1] }

/-- A store holding only `redBlue`. -/
def store0 : Store := [redBlue]

/-- A store holding only `redBlueVoted`. -/
def store1 : Store := [redBlueVoted]

/-- An environment in which three bearer tokens verify, one for each sample user. -/
def sampleEnv : Env :=
  { verify := fun t =>
      if t = "alice-token" then some 1
      else if t = "bob-token" then some 2
      else if t = "carol-token" then some 3
      else none
    users := [alice, bob, carol]
    now := 500 }

/-- A well-formed body for `createSurvey`. -/
def sampleBody : CreateBody :=
  { title := some "Tabs or spaces?"
    description := none
    options := some ["Tabs", "Spaces"]
    deadline := some 2000
    category := some "Technology"
    resultsVisible := none }

/-- Ids handed to the options of a new survey: 200, 201, ... -/
def sampleOptIds : Nat → ObjectId := fun i => 200 + i

/-- Bob creates the survey `redBlue`, then Alice votes Blue. -/
def createThenVote : List Call :=
  [Call.create 10 (fun i => 100 + i) (some bob)
      ⟨some "Favourite colour?", none, some ["Red", "Blue"], some 1000, none, none⟩,
   Call.vote 500 (some alice) 10 101]

/-- Alice votes Blue and Carol votes Red on `redBlue`, both read at time 500. -/
def twoVotes : List VoteReq :=
  [{ now := 500, user := alice, optionId := 101 },
   { now := 500, user := carol, optionId := 100 }]

/-- Both requests read the survey before either saves. -/
def racy : List Op := [Op.read 0, Op.read 1, Op.save 0, Op.save 1]

/-! ## Store lemmas -/

theorem findById_id {st : Store} {id : ObjectId} {s : Survey}
    (h : findById st id = some s) : s._id = id := by
  have := List.find?_some h
  simpa using this

theorem findById_mem {st : Store} {id : ObjectId} {s : Survey}
    (h : findById st id = some s) : s ∈ st :=
  List.mem_of_find?_eq_some h

theorem findById_save_same (st : Store) (d : Survey)
    (h : (findById st d._id).isSome) : findById (save st d) d._id = some d := by
  induction st with
  | nil => simp [findById] at h
  | cons s rest ih =>
    by_cases hs : s._id = d._id
    · simp [save, hs, findById]
    · have h2 : (findById rest d._id).isSome := by
        simpa [findById, List.find?_cons, hs] using h
      have := ih h2
      simpa [save, hs, findById, List.find?_cons] using this

theorem findById_save_other (st : Store) (d : Survey) (id : ObjectId)
    (h : id ≠ d._id) : findById (save st d) id = findById st id := by
  induction st with
  | nil => rfl
  | cons s rest ih =>
    by_cases hs : s._id = d._id
    · have h3 : ¬ d._id = id := fun e => h e.symm
      have h4 : ¬ s._id = id := fun e => h (e.symm.trans hs)
      simp [save, hs, findById, List.find?_cons, h3]
    · by_cases hi : s._id = id
      · simp [save, hs, findById, List.find?_cons, hi, h]
      · simpa [save, hs, findById, List.find?_cons, hi] using ih

theorem mem_save {st : Store} {d x : Survey} (h : x ∈ save st d) : x = d ∨ x ∈ st := by
  induction st with
  | nil => simp [save] at h
  | cons s rest ih =>
    by_cases hs : s._id = d._id
    · simp [save, hs] at h
      rcases h with h | h
      · exact Or.inl h
      · exact Or.inr (List.mem_cons_of_mem _ h)
    · simp [save, hs] at h
      rcases h with h | h
      · exact Or.inr (by simp [h])
      · rcases ih h with h | h
        · exact Or.inl h
        · exact Or.inr (List.mem_cons_of_mem _ h)

/-! ## Lemmas on the options array -/

theorem incVotes_length (opts : List OptionDoc) (optionId : ObjectId) :
    (incVotes opts optionId).length = opts.length := by
  induction opts with
  | nil => rfl
  | cons o rest ih =>
    by_cases h : o._id = optionId <;> simp [incVotes, h, ih]

theorem totalVotes_incVotes (opts : List OptionDoc) (optionId : ObjectId)
    (h : (optionById opts optionId).isSome) :
    totalVotes (incVotes opts optionId) = totalVotes opts + 1 := by
  induction opts with
  | nil => simp [optionById] at h
  | cons o rest ih =>
    by_cases ho : o._id = optionId
    · simp [incVotes, ho, totalVotes]; omega
    · have h2 : (optionById rest optionId).isSome := by
        simpa [optionById, List.find?_cons, ho] using h
      have := ih h2
      simp [incVotes, ho, totalVotes] at this ⊢
      omega

/-- Positional description of `incVotes`: the first option carrying the id is the one
whose counter moves, and the array is otherwise the same. -/
theorem incVotes_spec (opts : List OptionDoc) (optionId : ObjectId) (o : OptionDoc)
    (h : optionById opts optionId = some o) :
    ∃ i, opts[i]? = some o ∧ o._id = optionId ∧
      (∀ j o', j < i → opts[j]? = some o' → o'._id ≠ optionId) ∧
      incVotes opts optionId = opts.set i { o with votes := o.votes + 1 } := by
  induction opts with
  | nil => simp [optionById] at h
  | cons x rest ih =>
    by_cases hx : x._id = optionId
    · have hxo : x = o := by
        simpa [optionById, List.find?_cons, hx] using h
      subst hxo
      refine ⟨0, by simp, hx, ?_, by simp [incVotes, hx]⟩
      intro j o' hj
      omega
    · have h2 : optionById rest optionId = some o := by
        simpa [optionById, List.find?_cons, hx] using h
      obtain ⟨i, hi, hid, hfirst, hset⟩ := ih h2
      refine ⟨i + 1, by simpa using hi, hid, ?_, by simp [incVotes, hx, hset]⟩
      intro j o' hj hget
      cases j with
      | zero =>
        have : x = o' := by simpa using hget
        subst this
        exact hx
      | succ j =>
        exact hfirst j o' (by omega) (by simpa using hget)

/-! ## C1: postcondition of a successful vote -/

example : castVote 500 (some alice) 10 101 store0 =
    { response := ⟨200, Body.survey redBlueVoted⟩
      store := store1
      events := [Event.voteUpdate redBlueVoted]
      mail := some ⟨"alice@example.org", "Your Vote Has Been Recorded!",
        "Favourite colour?", "Blue"⟩ } := by decide

/-- C1: when `castVote` meets an existing survey `S` that is not expired (its deadline
is not earlier than the clock reading), a principal `u` who is not among its voters
and an `optionId` carried by one of its options, it
answers 200 with the saved survey `S'`, which is what the store then holds under that
id; `u._id` is in `S'.voters`, `S'.voters` is the old list with `u._id` appended, the
counter of the option with that id (the first such position `i`) is one higher, and
every other position of the options array is unchanged. -/
theorem castVote_success (now : Int) (u : User) (id optionId : ObjectId) (st : Store)
    (S : Survey) (hS : findById st id = some S) (hdl : ¬ S.deadline < now)
    (hnv : u._id ∉ S.voters) (hopt : ∃ o ∈ S.options, o._id = optionId) :
    ∃ (S' : Survey) (i : Nat) (o : OptionDoc),
      (castVote now (some u) id optionId st).response = ⟨200, Body.survey S'⟩ ∧
      findById (castVote now (some u) id optionId st).store id = some S' ∧
      u._id ∈ S'.voters ∧
      S'.voters = S.voters ++ [u._id] ∧
      S.options[i]? = some o ∧ o._id = optionId ∧
      (∀ j o', j < i → S.options[j]? = some o' → o'._id ≠ optionId) ∧
      S'.options[i]? = some { o with votes := o.votes + 1 } ∧
      (∀ j, j ≠ i → S'.options[j]? = S.options[j]?) ∧
      S'.options.length = S.options.length := by
  obtain ⟨o₀, ho₀, hid₀⟩ := hopt
  have hsome : (optionById S.options optionId).isSome := by
    rw [optionById, List.find?_isSome]
    exact ⟨o₀, ho₀, by simp [hid₀]⟩
  obtain ⟨o, ho⟩ := Option.isSome_iff_exists.mp hsome
  obtain ⟨i, hi, hoid, hfirst, hset⟩ := incVotes_spec S.options optionId o ho
  have hSid : S._id = id := findById_id hS
  have hi_lt : i < S.options.length := by
    rcases Nat.lt_or_ge i S.options.length with h | h
    · exact h
    · rw [List.getElem?_eq_none h] at hi
      exact absurd hi (by simp)
  refine ⟨{ S with options := incVotes S.options optionId, voters := S.voters ++ [u._id] },
    i, o, ?_, ?_, by simp, rfl, hi, hoid, hfirst, ?_, ?_, ?_⟩
  · simp [castVote, hS, hdl, hnv, ho]
  · have hfound : (findById st
        ({ S with options := incVotes S.options optionId,
                  voters := S.voters ++ [u._id] } : Survey)._id).isSome := by
      simp [hSid, hS]
    have := findById_save_same st _ hfound
    rw [← hSid]
    simpa [castVote, hSid, hS, hdl, hnv, ho] using this
  · simp [hset, List.getElem?_set, hi_lt]
  · intro j hj
    simp [hset, List.getElem?_set, Ne.symm hj]
  · simp [incVotes_length]

theorem castVote_success_witness :
    ∃ (S' : Survey) (i : Nat) (o : OptionDoc),
      (castVote 500 (some alice) 10 101 store0).response = ⟨200, Body.survey S'⟩ ∧
      findById (castVote 500 (some alice) 10 101 store0).store 10 = some S' ∧
      alice._id ∈ S'.voters ∧
      S'.voters = redBlue.voters ++ [alice._id] ∧
      redBlue.options[i]? = some o ∧ o._id = 101 ∧
      (∀ j o', j < i → redBlue.options[j]? = some o' → o'._id ≠ 101) ∧
      S'.options[i]? = some { o with votes := o.votes + 1 } ∧
      (∀ j, j ≠ i → S'.options[j]? = redBlue.options[j]?) ∧
      S'.options.length = redBlue.options.length :=
  castVote_success 500 alice 10 101 store0 redBlue (by decide) (by decide) (by decide)
    ⟨{ _id := 101, optionText := "Blue", votes := 0 }, by decide, rfl⟩

/-! ## C2: a second vote by the same principal -/

/-- What a 200 answer of `castVote` tells about the request. -/
theorem castVote_ok_inv {now : Int} {user : Option User} {id optionId : ObjectId}
    {st : Store} (h : (castVote now user id optionId st).response.status = 200) :
    ∃ S u o, findById st id = some S ∧ ¬ S.deadline < now ∧ user = some u ∧
      u._id ∉ S.voters ∧ optionById S.options optionId = some o ∧
      castVote now user id optionId st =
        { response := ⟨200, Body.survey
            { S with options := incVotes S.options optionId,
                     voters := S.voters ++ [u._id] }⟩
          store := save st
            { S with options := incVotes S.options optionId,
                     voters := S.voters ++ [u._id] }
          events := [Event.voteUpdate
            { S with options := incVotes S.options optionId,
                     voters := S.voters ++ [u._id] }]
          mail := some
            { email := u.email
              subject := "Your Vote Has Been Recorded!"
              surveyTitle := S.title
              optionText := o.optionText } } := by
  unfold castVote at h ⊢
  cases hS : findById st id with
  | none => simp [hS, reject, msg] at h
  | some S =>
    by_cases hdl : S.deadline < now
    · simp [hS, hdl, reject, msg] at h
    · cases user with
      | none => simp [hS, hdl, reject, msg] at h
      | some u =>
        by_cases hv : u._id ∈ S.voters
        · simp [hS, hdl, hv, reject, msg] at h
        · cases ho : optionById S.options optionId with
          | none => simp [hS, hdl, hv, ho, reject, msg] at h
          | some o =>
            exact ⟨S, u, o, rfl, hdl, rfl, hv, ho, by simp [hdl, hv, ho]⟩

example : castVote 600 (some alice) 10 100 store1 =
    reject store1 400 "You have already voted in this survey." := by decide

example : castVote 600 (some alice) 10 12345 store1 =
    reject store1 400 "You have already voted in this survey." := by decide

/-- C2: after a principal `u` has successfully voted on the survey `id` (first call
answered 200), a second `castVote` by `u` on that survey, made at any time `now₂` not
after the stored deadline (in particular at any time before it) and for any
`optionId₂`, existing or not, is answered 400 "You have already voted in this
survey."; the store is left as it was, so every counter and the voters list of the
survey are unchanged, and nothing is broadcast. -/
theorem castVote_duplicate_rejected (now₁ now₂ : Int) (u : User)
    (id optionId₁ optionId₂ : ObjectId) (st : Store) (S' : Survey)
    (hfirst : (castVote now₁ (some u) id optionId₁ st).response.status = 200)
    (hS' : findById (castVote now₁ (some u) id optionId₁ st).store id = some S')
    (hbefore : now₂ ≤ S'.deadline) :
    (castVote now₂ (some u) id optionId₂
        (castVote now₁ (some u) id optionId₁ st).store).response = alreadyVoted ∧
    (castVote now₂ (some u) id optionId₂
        (castVote now₁ (some u) id optionId₁ st).store).store =
      (castVote now₁ (some u) id optionId₁ st).store ∧
    findById (castVote now₂ (some u) id optionId₂
        (castVote now₁ (some u) id optionId₁ st).store).store id = some S' ∧
    (castVote now₂ (some u) id optionId₂
        (castVote now₁ (some u) id optionId₁ st).store).events = [] := by
  obtain ⟨S, u', o, hS, hdl, hu, hnv, ho, hout⟩ := castVote_ok_inv hfirst
  cases hu
  have hSid : S._id = id := findById_id hS
  have hsaved : findById (castVote now₁ (some u) id optionId₁ st).store id =
      some { S with options := incVotes S.options optionId₁,
                    voters := S.voters ++ [u._id] } := by
    rw [hout]
    have hfound : (findById st
        ({ S with options := incVotes S.options optionId₁,
                  voters := S.voters ++ [u._id] } : Survey)._id).isSome := by
      simp [hSid, hS]
    have := findById_save_same st _ hfound
    rw [← hSid]
    simpa [hSid] using this
  have hEq : S' = { S with options := incVotes S.options optionId₁,
                           voters := S.voters ++ [u._id] } := by
    rw [hsaved] at hS'
    exact (Option.some.inj hS').symm
  have hmem : u._id ∈ S'.voters := by rw [hEq]; simp
  have hnot : ¬ S'.deadline < now₂ := not_lt.mpr hbefore
  have hsecond : castVote now₂ (some u) id optionId₂
      (castVote now₁ (some u) id optionId₁ st).store =
      reject (castVote now₁ (some u) id optionId₁ st).store 400
        "You have already voted in this survey." := by
    generalize (castVote now₁ (some u) id optionId₁ st).store = st' at hS' ⊢
    simp [castVote, hS', hnot, hmem]
  rw [hsecond]
  exact ⟨rfl, rfl, hS', rfl⟩

theorem castVote_duplicate_rejected_witness :
    (castVote 600 (some alice) 10 100
        (castVote 500 (some alice) 10 101 store0).store).response = alreadyVoted ∧
    (castVote 600 (some alice) 10 100
        (castVote 500 (some alice) 10 101 store0).store).store =
      (castVote 500 (some alice) 10 101 store0).store ∧
    findById (castVote 600 (some alice) 10 100
        (castVote 500 (some alice) 10 101 store0).store).store 10 = some redBlueVoted ∧
    (castVote 600 (some alice) 10 100
        (castVote 500 (some alice) 10 101 store0).store).events = [] :=
  castVote_duplicate_rejected 500 600 alice 10 101 100 store0 redBlueVoted
    (by decide) (by decide) (by decide)

/-! ## C3: votes on an expired survey -/

example : castVote 1001 (some alice) 10 101 store0 =
    reject store0 400 "This survey has already expired." := by decide

/-- C3, as stated, fails: a survey whose deadline equals the current time still
accepts a vote.  With deadline 1000 and `now = 1000` the vote of Alice on `redBlue`
is answered 200 and the store changes. -/
theorem castVote_deadline_eq_now_accepted :
    ¬ ∀ (now : Int) (user : Option User) (id optionId : ObjectId) (st : Store)
        (S : Survey), findById st id = some S → S.deadline ≤ now →
        (castVote now user id optionId st).response = expired ∧
        (castVote now user id optionId st).store = st := by
  intro h
  have := (h 1000 (some alice) 10 101 store0 redBlue (by decide) (by decide)).1
  exact absurd this (by decide)

/-- C3, amended: for every existing survey whose deadline is strictly earlier than
the current time, every `castVote`, by any principal (even an unresolved one) and
for any option id, is answered 400 "This survey has already expired.", the store is
unchanged and nothing is broadcast. -/
theorem castVote_expired (now : Int) (user : Option User) (id optionId : ObjectId)
    (st : Store) (S : Survey) (hS : findById st id = some S) (hdl : S.deadline < now) :
    (castVote now user id optionId st).response = expired ∧
    (castVote now user id optionId st).store = st ∧
    findById (castVote now user id optionId st).store id = some S ∧
    (castVote now user id optionId st).events = [] := by
  have : castVote now user id optionId st =
      reject st 400 "This survey has already expired." := by
    simp [castVote, hS, hdl]
  rw [this]
  exact ⟨rfl, rfl, hS, rfl⟩

theorem castVote_expired_witness :
    (castVote 1001 (some alice) 10 101 store0).response = expired ∧
    (castVote 1001 (some alice) 10 101 store0).store = store0 ∧
    findById (castVote 1001 (some alice) 10 101 store0).store 10 = some redBlue ∧
    (castVote 1001 (some alice) 10 101 store0).events = [] :=
  castVote_expired 1001 (some alice) 10 101 store0 redBlue (by decide) (by decide)

/-! ## C4: votes and voters stay in step -/

theorem totalVotes_mkOptions (optIds : Nat → ObjectId) (i : Nat) (opts : List String) :
    totalVotes (mkOptions optIds i opts) = 0 := by
  induction opts generalizing i with
  | nil => rfl
  | cons t rest ih =>
    have := ih (i + 1)
    simp [mkOptions, totalVotes] at this ⊢
    exact this

theorem createSurvey_preserves (newId : ObjectId) (optIds : Nat → ObjectId)
    (user : Option User) (body : CreateBody) (st : Store)
    (h : ∀ s ∈ st, Consistent s) :
    ∀ s ∈ (createSurvey newId optIds user body st).store, Consistent s := by
  unfold createSurvey
  split
  · dsimp only
    split
    · intro s hs
      simp only [insert, List.mem_append, List.mem_singleton] at hs
      rcases hs with hs | hs
      · exact h s hs
      · subst hs
        simp [Consistent, totalVotes_mkOptions]
    · exact h
  · exact h

/-- A `castVote` that does not answer 200 only sends a message. -/
theorem castVote_fail_inv {now : Int} {user : Option User} {id optionId : ObjectId}
    {st : Store} (h : (castVote now user id optionId st).response.status ≠ 200) :
    ∃ code m, castVote now user id optionId st = reject st code m := by
  unfold castVote at h ⊢
  cases hS : findById st id with
  | none => exact ⟨404, _, rfl⟩
  | some S =>
    by_cases hdl : S.deadline < now
    · exact ⟨400, "This survey has already expired.", by simp [hdl]⟩
    · cases user with
      | none => exact ⟨500, "Server Error", by simp [hdl]⟩
      | some u =>
        by_cases hv : u._id ∈ S.voters
        · exact ⟨400, "You have already voted in this survey.", by simp [hdl, hv]⟩
        · cases ho : optionById S.options optionId with
          | none => exact ⟨404, "Invalid voting option.", by simp [hdl, hv, ho]⟩
          | some o => simp [hS, hdl, hv, ho] at h

theorem castVote_preserves (now : Int) (user : Option User) (id optionId : ObjectId)
    (st : Store) (h : ∀ s ∈ st, Consistent s) :
    ∀ s ∈ (castVote now user id optionId st).store, Consistent s := by
  by_cases hok : (castVote now user id optionId st).response.status = 200
  · obtain ⟨S, u, o, hS, -, -, -, ho, hout⟩ := castVote_ok_inv hok
    rw [hout]
    intro s hs
    rcases mem_save hs with hs | hs
    · subst hs
      have hc : Consistent S := h S (findById_mem hS)
      have hv := totalVotes_incVotes S.options optionId (by simp [ho])
      simp only [Consistent] at hc ⊢
      simp [hv, hc]
    · exact h s hs
  · obtain ⟨code, m, hrej⟩ := castVote_fail_inv hok
    rw [hrej]
    exact h

theorem toggle_preserves (user : Option User) (id : ObjectId)
    (st : Store) (h : ∀ s ∈ st, Consistent s) :
    ∀ s ∈ (toggleResultsVisibility user id st).store, Consistent s := by
  unfold toggleResultsVisibility
  cases hS : findById st id with
  | none => exact h
  | some S =>
    cases user with
    | none => exact h
    | some u =>
      by_cases hown : S.createdBy ≠ u._id
      · simpa [hown, reject] using h
      · simp only [hown, if_false]
        intro s hs
        rcases mem_save hs with hs | hs
        · subst hs
          exact h S (findById_mem hS)
        · exact h s hs

theorem closeSurvey_preserves (now : Int) (user : Option User) (id : ObjectId)
    (st : Store) (h : ∀ s ∈ st, Consistent s) :
    ∀ s ∈ (closeSurvey now user id st).store, Consistent s := by
  unfold closeSurvey
  cases hS : findById st id with
  | none => exact h
  | some S =>
    cases user with
    | none => exact h
    | some u =>
      by_cases hown : S.createdBy ≠ u._id
      · simpa [hown, reject] using h
      · simp only [hown, if_false]
        intro s hs
        rcases mem_save hs with hs | hs
        · subst hs
          exact h S (findById_mem hS)
        · exact h s hs

theorem deleteSurvey_preserves (user : Option User) (id : ObjectId)
    (st : Store) (h : ∀ s ∈ st, Consistent s) :
    ∀ s ∈ (deleteSurvey user id st).store, Consistent s := by
  unfold deleteSurvey
  cases hS : findById st id with
  | none => exact h
  | some S =>
    cases user with
    | none => exact h
    | some u =>
      by_cases hown : S.createdBy ≠ u._id
      · simpa [hown, reject] using h
      · simp only [hown, if_false]
        intro s hs
        exact h s (List.mem_of_mem_filter hs)

theorem exec_preserves (c : Call) (st : Store) (h : ∀ s ∈ st, Consistent s) :
    ∀ s ∈ (c.exec st).store, Consistent s := by
  cases c with
  | create newId optIds user body => exact createSurvey_preserves newId optIds user body st h
  | vote now user id optionId => exact castVote_preserves now user id optionId st h
  | close now user id => exact closeSurvey_preserves now user id st h
  | toggle user id => exact toggle_preserves user id st h
  | delete user id => exact deleteSurvey_preserves user id st h

theorem runCalls_preserves (calls : List Call) (st : Store)
    (h : ∀ s ∈ st, Consistent s) : ∀ s ∈ runCalls st calls, Consistent s := by
  induction calls generalizing st with
  | nil => exact h
  | cons c rest ih => exact ih _ (exec_preserves c st h)

/-- The calls of the example of the specification: an administrator creates the
survey, Alice votes Blue, Alice votes again, Carol votes Red, the owner toggles the
visibility and closes the survey. -/
example : (runCalls []
    [Call.create 10 (fun i => 100 + i) (some bob)
        ⟨some "Favourite colour?", none, some ["Red", "Blue"], some 1000, none, none⟩,
     Call.vote 500 (some alice) 10 101,
     Call.vote 600 (some alice) 10 100,
     Call.vote 700 (some carol) 10 100,
     Call.toggle (some bob) 10,
     Call.close 800 (some bob) 10]).map
      (fun s => (s.options.map (fun o => o.votes), s.voters, s.deadline, s.resultsVisible))
    = [([1, 1], [1, 3], 800, true)] := by decide

/-- C4: in every store reached from the empty collection by any sequence of
`createSurvey`, `castVote`, `closeSurvey`, `toggleResultsVisibility` and `deleteSurvey`
calls run one after the other, whatever their arguments and whether they succeed or
fail, every survey has the sum of its option counters equal to the number of entries
of `voters`. -/
theorem votes_eq_voters_invariant (calls : List Call) :
    ∀ s ∈ runCalls [] calls, totalVotes s.options = s.voters.length :=
  runCalls_preserves calls [] (by simp)

theorem votes_eq_voters_invariant_witness :
    redBlueVoted ∈ runCalls [] createThenVote ∧
    totalVotes redBlueVoted.options = redBlueVoted.voters.length ∧
    redBlueVoted.voters.length = 1 :=
  ⟨by decide, votes_eq_voters_invariant createThenVote redBlueVoted (by decide), by decide⟩

/-! ## C5: order of the precondition checks -/

example : castVote 2000 (some alice) 10 12345 store1 =
    reject store1 400 "This survey has already expired." := by decide

example : castVote 500 (some alice) 10 12345 store1 =
    reject store1 400 "You have already voted in this survey." := by decide

example : castVote 500 none 10 12345 store1 = reject store1 500 "Server Error" := by decide

/-- C5, as stated, fails.  On a survey whose deadline equals the current time and on
which the caller has already voted, the stated order announces Expired (the deadline
is not in the future), while `castVote` answers AlreadyVoted.  Moreover a request
whose principal is unresolved (`req.user` null) on an unexpired survey, and a request
whose survey id does not cast to an object id, are answered 500 "Server Error", which
is none of the four errors. -/
theorem castVote_order_deadline_eq_now :
    specFirstError 1000 alice 10 101 store1 = some expired ∧
    (castVote 1000 (some alice) 10 101 store1).response = alreadyVoted ∧
    alreadyVoted ≠ expired ∧
    (castVote 500 none 10 12345 store1).response = serverError ∧
    (withId (IdParam.invalid "abc") (fun id s => castVote 500 (some alice) id 101 s)
      store1).response = serverError ∧
    serverError ∉ [notFound, expired, alreadyVoted, invalidOption] := by decide

/-- C5, amended: for every request (any `:id` parameter, any `req.user`, any option
id) the answer of `castVote` is the first that applies in the order: 500 "Server
Error" (the survey id does not cast to an object id), NotFound (survey missing),
Expired (deadline strictly earlier than the current time), 500 "Server Error"
(`req.user` is null), AlreadyVoted (principal in `voters`), InvalidOption (`optionId`
not in the survey), whatever the later conditions are; each failure leaves the store
unchanged; when none applies the answer is 200; and the four precondition errors and
the server error are pairwise different. -/
theorem castVote_first_failure_wins (now : Int) (user : Option User) (p : IdParam)
    (optionId : ObjectId) (st : Store) :
    (∀ raw, p = IdParam.invalid raw →
      withId p (fun id s => castVote now user id optionId s) st =
        reject st 500 "Server Error") ∧
    (∀ id, p = IdParam.valid id → findById st id = none →
      withId p (fun id s => castVote now user id optionId s) st =
        reject st 404 "Survey not found") ∧
    (∀ id S, p = IdParam.valid id → findById st id = some S → S.deadline < now →
      withId p (fun id s => castVote now user id optionId s) st =
        reject st 400 "This survey has already expired.") ∧
    (∀ id S, p = IdParam.valid id → findById st id = some S → ¬ S.deadline < now →
      user = none →
      withId p (fun id s => castVote now user id optionId s) st =
        reject st 500 "Server Error") ∧
    (∀ id S u, p = IdParam.valid id → findById st id = some S → ¬ S.deadline < now →
      user = some u → u._id ∈ S.voters →
      withId p (fun id s => castVote now user id optionId s) st =
        reject st 400 "You have already voted in this survey.") ∧
    (∀ id S u, p = IdParam.valid id → findById st id = some S → ¬ S.deadline < now →
      user = some u → u._id ∉ S.voters → optionById S.options optionId = none →
      withId p (fun id s => castVote now user id optionId s) st =
        reject st 404 "Invalid voting option.") ∧
    (∀ id S u, p = IdParam.valid id → findById st id = some S → ¬ S.deadline < now →
      user = some u → u._id ∉ S.voters → (optionById S.options optionId).isSome →
      (withId p (fun id s => castVote now user id optionId s) st).response.status = 200) ∧
    [notFound, expired, alreadyVoted, invalidOption, serverError].Nodup := by
  refine ⟨?_, ?_, ?_, ?_, ?_, ?_, ?_, by decide⟩
  · intro raw hp
    subst hp
    rfl
  · intro id hp h
    subst hp
    simp [withId, castVote, h]
  · intro id S hp hS hdl
    subst hp
    simp [withId, castVote, hS, hdl]
  · intro id S hp hS hdl hu
    subst hp hu
    simp [withId, castVote, hS, hdl]
  · intro id S u hp hS hdl hu hv
    subst hp hu
    simp [withId, castVote, hS, hdl, hv]
  · intro id S u hp hS hdl hu hv ho
    subst hp hu
    simp [withId, castVote, hS, hdl, hv, ho]
  · intro id S u hp hS hdl hu hv ho
    subst hp hu
    obtain ⟨o, ho⟩ := Option.isSome_iff_exists.mp ho
    simp [withId, castVote, hS, hdl, hv, ho]

theorem castVote_first_failure_wins_witness :
    withId (IdParam.invalid "abc") (fun id s => castVote 500 (some alice) id 12345 s)
      store1 = reject store1 500 "Server Error" ∧
    withId (IdParam.valid 77) (fun id s => castVote 500 (some alice) id 12345 s) store1 =
      reject store1 404 "Survey not found" ∧
    withId (IdParam.valid 10) (fun id s => castVote 2000 (some alice) id 12345 s) store1 =
      reject store1 400 "This survey has already expired." ∧
    withId (IdParam.valid 10) (fun id s => castVote 500 none id 12345 s) store1 =
      reject store1 500 "Server Error" ∧
    withId (IdParam.valid 10) (fun id s => castVote 500 (some alice) id 12345 s) store1 =
      reject store1 400 "You have already voted in this survey." ∧
    withId (IdParam.valid 10) (fun id s => castVote 500 (some carol) id 12345 s) store1 =
      reject store1 404 "Invalid voting option." ∧
    (withId (IdParam.valid 10) (fun id s => castVote 500 (some carol) id 100 s)
      store1).response.status = 200 :=
  ⟨(castVote_first_failure_wins 500 (some alice) (IdParam.invalid "abc") 12345 store1).1
      "abc" rfl,
   (castVote_first_failure_wins 500 (some alice) (IdParam.valid 77) 12345 store1).2.1
      77 rfl (by decide),
   (castVote_first_failure_wins 2000 (some alice) (IdParam.valid 10) 12345 store1).2.2.1
      10 redBlueVoted rfl (by decide) (by decide),
   (castVote_first_failure_wins 500 none (IdParam.valid 10) 12345 store1).2.2.2.1
      10 redBlueVoted rfl (by decide) (by decide) rfl,
   (castVote_first_failure_wins 500 (some alice) (IdParam.valid 10) 12345 store1).2.2.2.2.1
      10 redBlueVoted alice rfl (by decide) (by decide) rfl (by decide),
   (castVote_first_failure_wins 500 (some carol) (IdParam.valid 10) 12345
      store1).2.2.2.2.2.1
      10 redBlueVoted carol rfl (by decide) (by decide) rfl (by decide) (by decide),
   (castVote_first_failure_wins 500 (some carol) (IdParam.valid 10) 100
      store1).2.2.2.2.2.2.1
      10 redBlueVoted carol rfl (by decide) (by decide) rfl (by decide) (by decide)⟩

/-! ## C6: closing a survey, then voting -/

example : (closeSurvey 500 (some bob) 10 store0).store =
    [{ redBlue with deadline := 500 }] := by decide

/-- C6, as stated, fails: after the owner closes `redBlue` at time 500, a vote made
at the very instant of closing (clock reading 500) is answered 200, not Expired. -/
theorem vote_at_instant_of_closing_accepted :
    findById store0 10 = some redBlue ∧ (500 : Int) < redBlue.deadline ∧
    (closeSurvey 500 (some bob) 10 store0).response.status = 200 ∧
    (castVote 500 (some alice) 10 101
      (closeSurvey 500 (some bob) 10 store0).store).response.status = 200 ∧
    (castVote 500 (some alice) 10 101
      (closeSurvey 500 (some bob) 10 store0).store).response ≠ expired := by decide

/-- C6, amended: after the owner of an existing survey calls `closeSurvey` at time `t`,
the call is answered 200, the stored deadline is `t`, hence at most every clock reading
`t' ≥ t`, and every `castVote` on that survey made at a time `t'` strictly later than
`t`, by any principal and for any option id, is answered 400 "This survey has already
expired." and changes nothing. -/
theorem close_then_vote_expired (t : Int) (owner : User) (id : ObjectId) (st : Store)
    (S : Survey) (hS : findById st id = some S) (hown : S.createdBy = owner._id) :
    (closeSurvey t (some owner) id st).response.status = 200 ∧
    findById (closeSurvey t (some owner) id st).store id = some { S with deadline := t } ∧
    (∀ t' : Int, t ≤ t' → ∀ S', findById (closeSurvey t (some owner) id st).store id = some S' →
      S'.deadline ≤ t') ∧
    (∀ (t' : Int) (user : Option User) (optionId : ObjectId), t < t' →
      castVote t' user id optionId (closeSurvey t (some owner) id st).store =
        reject (closeSurvey t (some owner) id st).store 400
          "This survey has already expired.") := by
  have hSid : S._id = id := findById_id hS
  have hclose : closeSurvey t (some owner) id st =
      { response := ⟨200, Body.survey { S with deadline := t }⟩
        store := save st { S with deadline := t }
        events := [Event.surveyDeleted S._id, Event.surveyClosed]
        mail := none } := by
    simp [closeSurvey, hS, hown]
  have hfound : (findById st ({ S with deadline := t } : Survey)._id).isSome := by
    simp [hSid, hS]
  have hsaved : findById (closeSurvey t (some owner) id st).store id =
      some { S with deadline := t } := by
    rw [hclose, ← hSid]
    exact findById_save_same st _ hfound
  refine ⟨by rw [hclose], hsaved, ?_, ?_⟩
  · intro t' ht S' hS'
    rw [hsaved] at hS'
    cases hS'
    exact ht
  · intro t' user optionId ht
    generalize (closeSurvey t (some owner) id st).store = st' at hsaved ⊢
    simp [castVote, hsaved, ht]

theorem close_then_vote_expired_witness :
    (closeSurvey 500 (some bob) 10 store0).response.status = 200 ∧
    findById (closeSurvey 500 (some bob) 10 store0).store 10 =
      some { redBlue with deadline := 500 } ∧
    (∀ t' : Int, 500 ≤ t' → ∀ S',
      findById (closeSurvey 500 (some bob) 10 store0).store 10 = some S' →
      S'.deadline ≤ t') ∧
    (∀ (t' : Int) (user : Option User) (optionId : ObjectId), 500 < t' →
      castVote t' user 10 optionId (closeSurvey 500 (some bob) 10 store0).store =
        reject (closeSurvey 500 (some bob) 10 store0).store 400
          "This survey has already expired.") :=
  close_then_vote_expired 500 bob 10 store0 redBlue (by decide) (by decide)

/-! ## C7: owner-only mutations -/

example : deleteSurvey (some carol) 10 store0 = reject store0 401 "User not authorized" := by
  decide

/-- C7: for an existing survey `S` and a caller `u` whose id differs from
`S.createdBy`, each of `deleteSurvey`, `closeSurvey` and `toggleResultsVisibility`
answers 401 "User not authorized", which is not the NotFound answer, and leaves the
store as it was: the survey is still there, unmodified.  Behind the `admin` middleware
of their routes the answer is still a 401 and the store is still unchanged. -/
theorem non_owner_not_authorized (now : Int) (u : User) (id : ObjectId) (st : Store)
    (S : Survey) (hS : findById st id = some S) (hne : u._id ≠ S.createdBy) :
    ((deleteSurvey (some u) id st).response = notAuthorized ∧
      (deleteSurvey (some u) id st).store = st ∧
      findById (deleteSurvey (some u) id st).store id = some S) ∧
    ((closeSurvey now (some u) id st).response = notAuthorized ∧
      (closeSurvey now (some u) id st).store = st ∧
      findById (closeSurvey now (some u) id st).store id = some S) ∧
    ((toggleResultsVisibility (some u) id st).response = notAuthorized ∧
      (toggleResultsVisibility (some u) id st).store = st ∧
      findById (toggleResultsVisibility (some u) id st).store id = some S) ∧
    notAuthorized ≠ notFound ∧
    ((admin (fun x s => deleteSurvey x id s) (some u) st).response.status = 401 ∧
      (admin (fun x s => deleteSurvey x id s) (some u) st).store = st) ∧
    ((admin (fun x s => closeSurvey now x id s) (some u) st).response.status = 401 ∧
      (admin (fun x s => closeSurvey now x id s) (some u) st).store = st) ∧
    ((admin (fun x s => toggleResultsVisibility x id s) (some u) st).response.status = 401 ∧
      (admin (fun x s => toggleResultsVisibility x id s) (some u) st).store = st) := by
  have hne2 : S.createdBy ≠ u._id := fun e => hne e.symm
  have hd : deleteSurvey (some u) id st = reject st 401 "User not authorized" := by
    simp [deleteSurvey, hS, hne2]
  have hc : closeSurvey now (some u) id st = reject st 401 "User not authorized" := by
    simp [closeSurvey, hS, hne2]
  have ht : toggleResultsVisibility (some u) id st = reject st 401 "User not authorized" := by
    simp [toggleResultsVisibility, hS, hne2]
  refine ⟨?_, ?_, ?_, by decide, ?_, ?_, ?_⟩
  · rw [hd]; exact ⟨rfl, rfl, hS⟩
  · rw [hc]; exact ⟨rfl, rfl, hS⟩
  · rw [ht]; exact ⟨rfl, rfl, hS⟩
  · by_cases hr : u.role = "admin"
    · simp only [admin, hr, if_true, hd]; exact ⟨rfl, rfl⟩
    · simp only [admin, hr, if_false]; exact ⟨rfl, rfl⟩
  · by_cases hr : u.role = "admin"
    · simp only [admin, hr, if_true, hc]; exact ⟨rfl, rfl⟩
    · simp only [admin, hr, if_false]; exact ⟨rfl, rfl⟩
  · by_cases hr : u.role = "admin"
    · simp only [admin, hr, if_true, ht]; exact ⟨rfl, rfl⟩
    · simp only [admin, hr, if_false]; exact ⟨rfl, rfl⟩

theorem non_owner_not_authorized_witness :
    ((deleteSurvey (some carol) 10 store0).response = notAuthorized ∧
      (deleteSurvey (some carol) 10 store0).store = store0 ∧
      findById (deleteSurvey (some carol) 10 store0).store 10 = some redBlue) ∧
    ((closeSurvey 500 (some carol) 10 store0).response = notAuthorized ∧
      (closeSurvey 500 (some carol) 10 store0).store = store0 ∧
      findById (closeSurvey 500 (some carol) 10 store0).store 10 = some redBlue) ∧
    ((toggleResultsVisibility (some carol) 10 store0).response = notAuthorized ∧
      (toggleResultsVisibility (some carol) 10 store0).store = store0 ∧
      findById (toggleResultsVisibility (some carol) 10 store0).store 10 = some redBlue) ∧
    notAuthorized ≠ notFound ∧
    ((admin (fun x s => deleteSurvey x 10 s) (some carol) store0).response.status = 401 ∧
      (admin (fun x s => deleteSurvey x 10 s) (some carol) store0).store = store0) ∧
    ((admin (fun x s => closeSurvey 500 x 10 s) (some carol) store0).response.status = 401 ∧
      (admin (fun x s => closeSurvey 500 x 10 s) (some carol) store0).store = store0) ∧
    ((admin (fun x s => toggleResultsVisibility x 10 s) (some carol) store0).response.status
        = 401 ∧
      (admin (fun x s => toggleResultsVisibility x 10 s) (some carol) store0).store = store0) :=
  non_owner_not_authorized 500 carol 10 store0 redBlue (by decide) (by decide)

/-! ## C8: requests for a survey that does not exist -/

example : protect sampleEnv.verify sampleEnv.users (some "Bearer alice-token") =
    [MwStep.next (some alice)] := by decide

example : (route sampleEnv (some "Bearer carol-token") (IdParam.valid 99) store0
    IdRequest.delete).responses = [notFound] := by decide

example : (route sampleEnv none (IdParam.invalid "abc") store0 IdRequest.get).responses =
    [serverError] := by decide

/-- C8, as stated, fails.  An ordinary user (role `user`) who asks to delete, close or
toggle a survey id that is not in the store is answered 401 "Not authorized as an
admin" by the `admin` middleware, not NotFound.  And an id that does not cast to an
object id, which no stored survey has, is answered 500 "Server Error" by get-by-id. -/
theorem missing_survey_ordinary_user_not_admin :
    findById store0 99 = none ∧
    protect sampleEnv.verify sampleEnv.users (some "Bearer alice-token") =
      [MwStep.next (some alice)] ∧
    (route sampleEnv (some "Bearer alice-token") (IdParam.valid 99) store0
      IdRequest.delete).responses = [notAdmin] ∧
    (route sampleEnv (some "Bearer alice-token") (IdParam.valid 99) store0
      IdRequest.close).responses = [notAdmin] ∧
    (route sampleEnv (some "Bearer alice-token") (IdParam.valid 99) store0
      IdRequest.toggleVisibility).responses = [notAdmin] ∧
    notAdmin ≠ notFound ∧
    (route sampleEnv none (IdParam.invalid "abc") store0 IdRequest.get).responses =
      [serverError] ∧
    serverError ≠ notFound := by decide

theorem runChain_of_inert (h : Option User → Store → Outcome) (st : Store)
    (hh : ∀ user, (h user st).store = st ∧ (h user st).events = [])
    (steps : List MwStep) :
    (runChain h steps st).store = st ∧ (runChain h steps st).events = [] := by
  induction steps with
  | nil => exact ⟨rfl, rfl⟩
  | cons step rest ih =>
    cases step with
    | respond r => simpa [runChain] using ih
    | next user =>
      obtain ⟨h1, h2⟩ := hh user
      simp only [runChain, h1, h2, List.nil_append]
      exact ih

theorem deleteSurvey_missing (user : Option User) (id : ObjectId) (st : Store)
    (h : findById st id = none) :
    deleteSurvey user id st = reject st 404 "Survey not found" := by
  simp [deleteSurvey, h]

theorem closeSurvey_missing (now : Int) (user : Option User) (id : ObjectId) (st : Store)
    (h : findById st id = none) :
    closeSurvey now user id st = reject st 404 "Survey not found" := by
  simp [closeSurvey, h]

theorem toggle_missing (user : Option User) (id : ObjectId) (st : Store)
    (h : findById st id = none) :
    toggleResultsVisibility user id st = reject st 404 "Survey not found" := by
  simp [toggleResultsVisibility, h]

theorem castVote_missing (now : Int) (user : Option User) (id optionId : ObjectId)
    (st : Store) (h : findById st id = none) :
    castVote now user id optionId st = reject st 404 "Survey not found" := by
  simp [castVote, h]

theorem getSurveyById_missing (users : List User) (id : ObjectId) (st : Store)
    (h : findById st id = none) :
    getSurveyById users id st = reject st 404 "Survey not found" := by
  simp [getSurveyById, h]

theorem admin_inert (g : Option User → Store → Outcome) (st : Store)
    (hg : ∀ user, (g user st).store = st ∧ (g user st).events = []) (user : Option User) :
    (admin g user st).store = st ∧ (admin g user st).events = [] := by
  cases user with
  | none => exact ⟨rfl, rfl⟩
  | some u =>
    by_cases hr : u.role = "admin"
    · simpa [admin, hr] using hg (some u)
    · simp [admin, hr, reject]

theorem withId_absent (p : IdParam) (h : ObjectId → Store → Outcome) (st : Store)
    (hh : ∀ id, p = IdParam.valid id → h id st = reject st 404 "Survey not found") :
    withId p h st =
      { response := absentAnswer p, store := st, events := [], mail := none } := by
  cases p with
  | valid id => simpa [withId, absentAnswer, reject, notFound] using hh id rfl
  | invalid raw => rfl

/-- C8, amended: for a survey id that is not in the store, whether it is a well-formed
object id that no stored survey has or a string that does not cast to an object id,
the answer is NotFound in the first case and 500 "Server Error" in the second
(`absentAnswer`) for a get-by-id request, whoever asks, for a vote request that
`protect` lets through, whatever principal it resolved, and for a delete, close or
toggle-visibility request of an administrator; a delete, close or toggle-visibility
request of a caller who is not an administrator is answered 401 "Not authorized as an
admin" in both cases.  In every case the store is unchanged and nothing is
broadcast. -/
theorem missing_survey_through_routes (env : Env) (authorization : Option String)
    (p : IdParam) (st : Store)
    (hmiss : ∀ id, p = IdParam.valid id → findById st id = none) :
    (route env authorization p st IdRequest.get).responses = [absentAnswer p] ∧
    (∀ user optionId, protect env.verify env.users authorization = [MwStep.next user] →
      (route env authorization p st (IdRequest.vote optionId)).responses =
        [absentAnswer p]) ∧
    (∀ u, protect env.verify env.users authorization = [MwStep.next (some u)] →
      u.role = "admin" →
      (route env authorization p st IdRequest.delete).responses = [absentAnswer p] ∧
      (route env authorization p st IdRequest.close).responses = [absentAnswer p] ∧
      (route env authorization p st IdRequest.toggleVisibility).responses =
        [absentAnswer p]) ∧
    (∀ u, protect env.verify env.users authorization = [MwStep.next (some u)] →
      u.role ≠ "admin" →
      (route env authorization p st IdRequest.delete).responses = [notAdmin] ∧
      (route env authorization p st IdRequest.close).responses = [notAdmin] ∧
      (route env authorization p st IdRequest.toggleVisibility).responses = [notAdmin]) ∧
    (∀ r, (route env authorization p st r).store = st ∧
      (route env authorization p st r).events = []) ∧
    (∀ id, absentAnswer (IdParam.valid id) = notFound) ∧
    (∀ raw, absentAnswer (IdParam.invalid raw) = serverError) := by
  have hget := withId_absent p (fun id s => getSurveyById env.users id s) st
    (fun id hp => getSurveyById_missing env.users id st (hmiss id hp))
  have hdel : ∀ user, withId p (fun id s => deleteSurvey user id s) st =
      { response := absentAnswer p, store := st, events := [], mail := none } :=
    fun user => withId_absent p _ st
      (fun id hp => deleteSurvey_missing user id st (hmiss id hp))
  have hclose : ∀ user, withId p (fun id s => closeSurvey env.now user id s) st =
      { response := absentAnswer p, store := st, events := [], mail := none } :=
    fun user => withId_absent p _ st
      (fun id hp => closeSurvey_missing env.now user id st (hmiss id hp))
  have htoggle : ∀ user, withId p (fun id s => toggleResultsVisibility user id s) st =
      { response := absentAnswer p, store := st, events := [], mail := none } :=
    fun user => withId_absent p _ st
      (fun id hp => toggle_missing user id st (hmiss id hp))
  have hvote : ∀ user optionId,
      withId p (fun id s => castVote env.now user id optionId s) st =
      { response := absentAnswer p, store := st, events := [], mail := none } :=
    fun user optionId => withId_absent p _ st
      (fun id hp => castVote_missing env.now user id optionId st (hmiss id hp))
  refine ⟨?_, ?_, ?_, ?_, ?_, fun _ => rfl, fun _ => rfl⟩
  · simp [route, hget]
  · intro user optionId hp
    simp [route, hp, runChain, hvote]
  · intro u hp hr
    simp [route, hp, runChain, admin, hr, hdel, hclose, htoggle]
  · intro u hp hr
    simp [route, hp, runChain, admin, hr, reject, notAdmin]
  · intro r
    cases r with
    | get => simp [route, hget]
    | delete =>
      exact runChain_of_inert _ st (admin_inert _ st (fun user => by
        rw [hdel user]; exact ⟨rfl, rfl⟩)) _
    | vote optionId =>
      exact runChain_of_inert _ st (fun user => by
        rw [hvote user optionId]; exact ⟨rfl, rfl⟩) _
    | close =>
      exact runChain_of_inert _ st (admin_inert _ st (fun user => by
        rw [hclose user]; exact ⟨rfl, rfl⟩)) _
    | toggleVisibility =>
      exact runChain_of_inert _ st (admin_inert _ st (fun user => by
        rw [htoggle user]; exact ⟨rfl, rfl⟩)) _

theorem missing_survey_through_routes_witness :
    (route sampleEnv none (IdParam.valid 99) store0 IdRequest.get).responses = [notFound] ∧
    (route sampleEnv none (IdParam.invalid "abc") store0 IdRequest.get).responses =
      [serverError] ∧
    (route sampleEnv (some "Bearer alice-token") (IdParam.valid 99) store0
      (IdRequest.vote 101)).responses = [notFound] ∧
    (route sampleEnv (some "Bearer alice-token") (IdParam.invalid "abc") store0
      (IdRequest.vote 101)).responses = [serverError] ∧
    ((route sampleEnv (some "Bearer carol-token") (IdParam.valid 99) store0
        IdRequest.delete).responses = [notFound] ∧
      (route sampleEnv (some "Bearer carol-token") (IdParam.valid 99) store0
        IdRequest.close).responses = [notFound] ∧
      (route sampleEnv (some "Bearer carol-token") (IdParam.valid 99) store0
        IdRequest.toggleVisibility).responses = [notFound]) ∧
    ((route sampleEnv (some "Bearer carol-token") (IdParam.invalid "abc") store0
        IdRequest.delete).responses = [serverError] ∧
      (route sampleEnv (some "Bearer carol-token") (IdParam.invalid "abc") store0
        IdRequest.close).responses = [serverError] ∧
      (route sampleEnv (some "Bearer carol-token") (IdParam.invalid "abc") store0
        IdRequest.toggleVisibility).responses = [serverError]) ∧
    ((route sampleEnv (some "Bearer alice-token") (IdParam.valid 99) store0
        IdRequest.delete).responses = [notAdmin] ∧
      (route sampleEnv (some "Bearer alice-token") (IdParam.valid 99) store0
        IdRequest.close).responses = [notAdmin] ∧
      (route sampleEnv (some "Bearer alice-token") (IdParam.valid 99) store0
        IdRequest.toggleVisibility).responses = [notAdmin]) :=
  ⟨(missing_survey_through_routes sampleEnv none (IdParam.valid 99) store0
      (fun id hp => by cases hp; decide)).1,
   (missing_survey_through_routes sampleEnv none (IdParam.invalid "abc") store0
      (fun id hp => by cases hp)).1,
   (missing_survey_through_routes sampleEnv (some "Bearer alice-token") (IdParam.valid 99)
      store0 (fun id hp => by cases hp; decide)).2.1 (some alice) 101 (by decide),
   (missing_survey_through_routes sampleEnv (some "Bearer alice-token")
      (IdParam.invalid "abc") store0 (fun id hp => by cases hp)).2.1 (some alice) 101
      (by decide),
   (missing_survey_through_routes sampleEnv (some "Bearer carol-token") (IdParam.valid 99)
      store0 (fun id hp => by cases hp; decide)).2.2.1 carol (by decide) (by decide),
   (missing_survey_through_routes sampleEnv (some "Bearer carol-token")
      (IdParam.invalid "abc") store0 (fun id hp => by cases hp)).2.2.1 carol (by decide)
      (by decide),
   (missing_survey_through_routes sampleEnv (some "Bearer alice-token") (IdParam.valid 99)
      store0 (fun id hp => by cases hp; decide)).2.2.2.1 alice (by decide) (by decide)⟩

/-! ## C9: broadcast events -/

example : (closeSurvey 500 (some bob) 10 store0).events =
    [Event.surveyDeleted 10, Event.surveyClosed] := by decide

/-- C9, as stated, fails: a successful `closeSurvey` emits `surveyDeleted` with the
survey id and `surveyClosed`, and no `voteUpdate`. -/
theorem closeSurvey_emits_no_voteUpdate :
    (closeSurvey 500 (some bob) 10 store0).response.status = 200 ∧
    (closeSurvey 500 (some bob) 10 store0).events =
      [Event.surveyDeleted 10, Event.surveyClosed] ∧
    ∀ S, Event.voteUpdate S ∉ (closeSurvey 500 (some bob) 10 store0).events := by
  refine ⟨by decide, by decide, ?_⟩
  intro S hmem
  have hev : (closeSurvey 500 (some bob) 10 store0).events =
      [Event.surveyDeleted 10, Event.surveyClosed] := by decide
  rw [hev] at hmem
  simp at hmem

theorem toggle_cases (user : Option User) (id : ObjectId) (st : Store) :
    (∃ code m, code ≠ 200 ∧ toggleResultsVisibility user id st = reject st code m) ∨
    (∃ S, findById st id = some S ∧
      toggleResultsVisibility user id st =
        { response := ⟨200, Body.survey { S with resultsVisible := !S.resultsVisible }⟩
          store := save st { S with resultsVisible := !S.resultsVisible }
          events := [Event.voteUpdate { S with resultsVisible := !S.resultsVisible }]
          mail := none }) := by
  unfold toggleResultsVisibility
  cases hS : findById st id with
  | none => exact Or.inl ⟨404, _, by decide, rfl⟩
  | some S =>
    cases user with
    | none => exact Or.inl ⟨500, _, by decide, rfl⟩
    | some u =>
      by_cases hown : S.createdBy ≠ u._id
      · exact Or.inl ⟨401, "User not authorized", by decide, by simp [hown]⟩
      · exact Or.inr ⟨S, rfl, by simp [hown]⟩

theorem closeSurvey_cases (now : Int) (user : Option User) (id : ObjectId) (st : Store) :
    (∃ code m, code ≠ 200 ∧ closeSurvey now user id st = reject st code m) ∨
    (∃ S, findById st id = some S ∧
      closeSurvey now user id st =
        { response := ⟨200, Body.survey { S with deadline := now }⟩
          store := save st { S with deadline := now }
          events := [Event.surveyDeleted id, Event.surveyClosed]
          mail := none }) := by
  unfold closeSurvey
  cases hS : findById st id with
  | none => exact Or.inl ⟨404, _, by decide, rfl⟩
  | some S =>
    have hSid : S._id = id := findById_id hS
    cases user with
    | none => exact Or.inl ⟨500, _, by decide, rfl⟩
    | some u =>
      by_cases hown : S.createdBy ≠ u._id
      · exact Or.inl ⟨401, "User not authorized", by decide, by simp [hown]⟩
      · exact Or.inr ⟨S, rfl, by simp [hown, hSid]⟩

theorem deleteSurvey_cases (user : Option User) (id : ObjectId) (st : Store) :
    (∃ code m, code ≠ 200 ∧ deleteSurvey user id st = reject st code m) ∨
    (∃ S, findById st id = some S ∧
      deleteSurvey user id st =
        { response := msg 200 "Survey removed successfully"
          store := deleteOne st S
          events := [Event.surveyDeleted id]
          mail := none }) := by
  unfold deleteSurvey
  cases hS : findById st id with
  | none => exact Or.inl ⟨404, _, by decide, rfl⟩
  | some S =>
    cases user with
    | none => exact Or.inl ⟨500, _, by decide, rfl⟩
    | some u =>
      by_cases hown : S.createdBy ≠ u._id
      · exact Or.inl ⟨401, "User not authorized", by decide, by simp [hown]⟩
      · exact Or.inr ⟨S, rfl, by simp [hown]⟩

theorem createSurvey_cases (newId : ObjectId) (optIds : Nat → ObjectId)
    (user : Option User) (body : CreateBody) (st : Store) :
    createSurvey newId optIds user body st = reject st 400 "Error creating survey" ∨
    (∃ S, S._id = newId ∧ S.voters = [] ∧
      createSurvey newId optIds user body st =
        { response := ⟨201, Body.survey S⟩
          store := insert st S
          events := [Event.newSurvey S]
          mail := none }) := by
  unfold createSurvey
  split
  · dsimp only
    split
    · exact Or.inr ⟨_, rfl, rfl, rfl⟩
    · exact Or.inl rfl
  · exact Or.inl rfl

theorem findById_save_loaded {st : Store} {id : ObjectId} {S : Survey}
    (hS : findById st id = some S) (d : Survey) (hd : d._id = S._id) :
    findById (save st d) id = some d := by
  have hSid : S._id = id := findById_id hS
  have hfound : (findById st d._id).isSome := by
    rw [hd, hSid, hS]; rfl
  have := findById_save_same st d hfound
  rwa [hd, hSid] at this

/-- C9, amended: every successful mutation publishes exactly these events, in this
order: `castVote` one `voteUpdate` carrying the updated survey (the document of the
response, now stored); `toggleResultsVisibility` one `voteUpdate` carrying the updated
survey; `closeSurvey` `surveyDeleted` with the survey id, then `surveyClosed`, and no
`voteUpdate`; `deleteSurvey` one `surveyDeleted` with the survey id; `createSurvey` one
`newSurvey` carrying the created survey.  A call that is not answered with its success
status publishes nothing and leaves the store as it was. -/
theorem broadcast_catalogue (now : Int) (user : Option User) (id optionId : ObjectId)
    (newId : ObjectId) (optIds : Nat → ObjectId) (body : CreateBody) (st : Store) :
    (((castVote now user id optionId st).response.status = 200 →
        ∃ S', (castVote now user id optionId st).response = ⟨200, Body.survey S'⟩ ∧
          findById (castVote now user id optionId st).store id = some S' ∧
          (castVote now user id optionId st).events = [Event.voteUpdate S']) ∧
      ((castVote now user id optionId st).response.status ≠ 200 →
        (castVote now user id optionId st).events = [] ∧
        (castVote now user id optionId st).store = st)) ∧
    (((toggleResultsVisibility user id st).response.status = 200 →
        ∃ S', (toggleResultsVisibility user id st).response = ⟨200, Body.survey S'⟩ ∧
          findById (toggleResultsVisibility user id st).store id = some S' ∧
          (toggleResultsVisibility user id st).events = [Event.voteUpdate S']) ∧
      ((toggleResultsVisibility user id st).response.status ≠ 200 →
        (toggleResultsVisibility user id st).events = [] ∧
        (toggleResultsVisibility user id st).store = st)) ∧
    (((closeSurvey now user id st).response.status = 200 →
        ∃ S', (closeSurvey now user id st).response = ⟨200, Body.survey S'⟩ ∧
          findById (closeSurvey now user id st).store id = some S' ∧
          (closeSurvey now user id st).events =
            [Event.surveyDeleted id, Event.surveyClosed]) ∧
      ((closeSurvey now user id st).response.status ≠ 200 →
        (closeSurvey now user id st).events = [] ∧
        (closeSurvey now user id st).store = st)) ∧
    (((deleteSurvey user id st).response.status = 200 →
        (deleteSurvey user id st).events = [Event.surveyDeleted id]) ∧
      ((deleteSurvey user id st).response.status ≠ 200 →
        (deleteSurvey user id st).events = [] ∧
        (deleteSurvey user id st).store = st)) ∧
    (((createSurvey newId optIds user body st).response.status = 201 →
        ∃ S', (createSurvey newId optIds user body st).response = ⟨201, Body.survey S'⟩ ∧
          S' ∈ (createSurvey newId optIds user body st).store ∧
          (createSurvey newId optIds user body st).events = [Event.newSurvey S']) ∧
      ((createSurvey newId optIds user body st).response.status ≠ 201 →
        (createSurvey newId optIds user body st).events = [] ∧
        (createSurvey newId optIds user body st).store = st)) := by
  refine ⟨⟨?_, ?_⟩, ?_, ?_, ?_, ?_⟩
  · intro hok
    obtain ⟨S, u, o, hS, -, -, -, -, hout⟩ := castVote_ok_inv hok
    rw [hout]
    exact ⟨_, rfl, findById_save_loaded hS _ rfl, rfl⟩
  · intro hne
    obtain ⟨code, m, hrej⟩ := castVote_fail_inv hne
    rw [hrej]
    exact ⟨rfl, rfl⟩
  · rcases toggle_cases user id st with ⟨code, m, hcode, hrej⟩ | ⟨S, hS, hout⟩
    · rw [hrej]
      exact ⟨fun h => absurd h hcode, fun _ => ⟨rfl, rfl⟩⟩
    · rw [hout]
      exact ⟨fun _ => ⟨_, rfl, findById_save_loaded hS _ rfl, rfl⟩,
        fun h => absurd rfl h⟩
  · rcases closeSurvey_cases now user id st with ⟨code, m, hcode, hrej⟩ | ⟨S, hS, hout⟩
    · rw [hrej]
      exact ⟨fun h => absurd h hcode, fun _ => ⟨rfl, rfl⟩⟩
    · rw [hout]
      exact ⟨fun _ => ⟨_, rfl, findById_save_loaded hS _ rfl, rfl⟩,
        fun h => absurd rfl h⟩
  · rcases deleteSurvey_cases user id st with ⟨code, m, hcode, hrej⟩ | ⟨S, hS, hout⟩
    · rw [hrej]
      exact ⟨fun h => absurd h hcode, fun _ => ⟨rfl, rfl⟩⟩
    · rw [hout]
      exact ⟨fun _ => rfl, fun h => absurd rfl h⟩
  · rcases createSurvey_cases newId optIds user body st with hrej | ⟨S, -, -, hout⟩
    · rw [hrej]
      exact ⟨fun h => absurd h (by simp [reject, msg]), fun _ => ⟨rfl, rfl⟩⟩
    · rw [hout]
      exact ⟨fun _ => ⟨S, rfl, by simp [insert], rfl⟩, fun h => absurd rfl h⟩

theorem broadcast_catalogue_witness :
    (∃ S', (castVote 500 (some bob) 10 101 store0).response = ⟨200, Body.survey S'⟩ ∧
      findById (castVote 500 (some bob) 10 101 store0).store 10 = some S' ∧
      (castVote 500 (some bob) 10 101 store0).events = [Event.voteUpdate S']) ∧
    (∃ S', (toggleResultsVisibility (some bob) 10 store0).response = ⟨200, Body.survey S'⟩ ∧
      findById (toggleResultsVisibility (some bob) 10 store0).store 10 = some S' ∧
      (toggleResultsVisibility (some bob) 10 store0).events = [Event.voteUpdate S']) ∧
    (∃ S', (closeSurvey 500 (some bob) 10 store0).response = ⟨200, Body.survey S'⟩ ∧
      findById (closeSurvey 500 (some bob) 10 store0).store 10 = some S' ∧
      (closeSurvey 500 (some bob) 10 store0).events =
        [Event.surveyDeleted 10, Event.surveyClosed]) ∧
    (deleteSurvey (some bob) 10 store0).events = [Event.surveyDeleted 10] ∧
    (∃ S', (createSurvey 11 sampleOptIds (some bob) sampleBody store0).response =
        ⟨201, Body.survey S'⟩ ∧
      S' ∈ (createSurvey 11 sampleOptIds (some bob) sampleBody store0).store ∧
      (createSurvey 11 sampleOptIds (some bob) sampleBody store0).events =
        [Event.newSurvey S']) ∧
    ((castVote 500 (some alice) 99 101 store0).events = [] ∧
      (castVote 500 (some alice) 99 101 store0).store = store0) ∧
    ((toggleResultsVisibility (some alice) 10 store0).events = [] ∧
      (toggleResultsVisibility (some alice) 10 store0).store = store0) ∧
    ((closeSurvey 500 (some alice) 10 store0).events = [] ∧
      (closeSurvey 500 (some alice) 10 store0).store = store0) ∧
    ((deleteSurvey (some alice) 10 store0).events = [] ∧
      (deleteSurvey (some alice) 10 store0).store = store0) ∧
    ((createSurvey 10 sampleOptIds (some alice) sampleBody store0).events = [] ∧
      (createSurvey 10 sampleOptIds (some alice) sampleBody store0).store = store0) :=
  ⟨(broadcast_catalogue 500 (some bob) 10 101 11 sampleOptIds sampleBody store0).1.1
      (by decide),
   (broadcast_catalogue 500 (some bob) 10 101 11 sampleOptIds sampleBody store0).2.1.1
      (by decide),
   (broadcast_catalogue 500 (some bob) 10 101 11 sampleOptIds sampleBody store0).2.2.1.1
      (by decide),
   (broadcast_catalogue 500 (some bob) 10 101 11 sampleOptIds sampleBody store0).2.2.2.1.1
      (by decide),
   (broadcast_catalogue 500 (some bob) 10 101 11 sampleOptIds sampleBody store0).2.2.2.2.1
      (by decide),
   (broadcast_catalogue 500 (some alice) 99 101 10 sampleOptIds sampleBody store0).1.2
      (by decide),
   (broadcast_catalogue 500 (some alice) 10 101 10 sampleOptIds sampleBody store0).2.1.2
      (by decide),
   (broadcast_catalogue 500 (some alice) 10 101 10 sampleOptIds sampleBody store0).2.2.1.2
      (by decide),
   (broadcast_catalogue 500 (some alice) 10 101 10 sampleOptIds sampleBody store0).2.2.2.1.2
      (by decide),
   (broadcast_catalogue 500 (some alice) 10 101 10 sampleOptIds sampleBody store0).2.2.2.2.2
      (by decide)⟩

/-! ## C11: outcomes of `protect` -/

example : protect sampleEnv.verify sampleEnv.users none =
    [MwStep.respond (msg 401 "Not authorized, no token")] := by decide

example : protect sampleEnv.verify sampleEnv.users (some "Basic abc") =
    [MwStep.respond (msg 401 "Not authorized, no token")] := by decide

example : protect sampleEnv.verify sampleEnv.users (some "Bearer forged") =
    [MwStep.respond (msg 401 "Not authorized, token failed")] := by decide

example : protect sampleEnv.verify sampleEnv.users (some "Bearer bob-token") =
    [MwStep.next (some bob)] := by decide

example : protect sampleEnv.verify sampleEnv.users (some "Bearer ") =
    [MwStep.respond (msg 401 "Not authorized, token failed"),
     MwStep.respond (msg 401 "Not authorized, no token")] := by decide

/-- C11, as stated, fails twice.  On the header `Bearer` with no token after it,
`protect` answers 401 "token failed" in its `catch` and then 401 "no token" in the
final `if (!token)`: two responses.  On a token that verifies for an id no user has
(here the user collection is empty), it calls `next()` with `req.user` null, not an
existing principal. -/
theorem protect_two_responses_or_null_user :
    protect sampleEnv.verify sampleEnv.users (some "Bearer") =
      [MwStep.respond (msg 401 "Not authorized, token failed"),
       MwStep.respond (msg 401 "Not authorized, no token")] ∧
    sampleEnv.verify "alice-token" = some 1 ∧
    protect sampleEnv.verify [] (some "Bearer alice-token") = [MwStep.next none] := by
  decide

theorem protect_no_bearer (verify : String → Option ObjectId) (users : List User)
    (h : String) (hc : ¬ (h ≠ "" ∧ "Bearer".toList.isPrefixOf h.toList = true)) :
    protect verify users (some h) =
      [MwStep.respond (msg 401 "Not authorized, no token")] := by
  unfold protect
  simp only [hc, if_false, List.nil_append]

theorem protect_bearer_token (verify : String → Option ObjectId) (users : List User)
    (h : String) (t : List Char)
    (hc : h ≠ "" ∧ "Bearer".toList.isPrefixOf h.toList = true)
    (ht : (splitSpace h.toList)[1]? = some t) (hne : String.mk t ≠ "") :
    protect verify users (some h) =
      match verify (String.mk t) with
      | none => [MwStep.respond (msg 401 "Not authorized, token failed")]
      | some uid => [MwStep.next (findUser users uid)] := by
  unfold protect
  simp only [hc, and_self, if_true, ht, hne, if_false, ne_eq, not_false_eq_true]
  cases verify (String.mk t) <;> simp [hne]

/-- C11, amended: on every request whose Authorization header is absent, does not
start with `Bearer`, or starts with `Bearer` and carries a non-empty token after the
first space, `protect` makes exactly one step: it answers 401 "Not authorized, no
token" (no bearer header), or answers 401 "Not authorized, token failed" (the token
does not verify), or calls `next()` once with `req.user` set to the result of the user
lookup for the id of the verified token; that result is a stored principal whenever
it is not null.  On these requests it never answers twice and never both answers and
calls `next()`. -/
theorem protect_single_outcome (verify : String → Option ObjectId) (users : List User)
    (authorization : Option String)
    (htoken : ∀ h, authorization = some h → h ≠ "" →
      "Bearer".toList.isPrefixOf h.toList = true →
      ∃ t, (splitSpace h.toList)[1]? = some t ∧ String.mk t ≠ "") :
    (protect verify users authorization).length = 1 ∧
    (protect verify users authorization =
        [MwStep.respond (msg 401 "Not authorized, no token")] ∨
      protect verify users authorization =
        [MwStep.respond (msg 401 "Not authorized, token failed")] ∨
      ∃ h t uid, authorization = some h ∧ (splitSpace h.toList)[1]? = some t ∧
        verify (String.mk t) = some uid ∧
        protect verify users authorization = [MwStep.next (findUser users uid)]) ∧
    (∀ u, MwStep.next (some u) ∈ protect verify users authorization → u ∈ users) := by
  cases authorization with
  | none =>
    have hp : protect verify users none =
        [MwStep.respond (msg 401 "Not authorized, no token")] := rfl
    rw [hp]
    exact ⟨rfl, Or.inl rfl, by simp⟩
  | some h =>
    by_cases hc : h ≠ "" ∧ "Bearer".toList.isPrefixOf h.toList = true
    · obtain ⟨t, ht, hne⟩ := htoken h rfl hc.1 hc.2
      have hp := protect_bearer_token verify users h t hc ht hne
      cases hv : verify (String.mk t) with
      | none =>
        rw [hv] at hp
        rw [hp]
        exact ⟨rfl, Or.inr (Or.inl rfl), by simp⟩
      | some uid =>
        rw [hv] at hp
        rw [hp]
        refine ⟨rfl, Or.inr (Or.inr ⟨h, t, uid, rfl, ht, hv, rfl⟩), ?_⟩
        intro u hu
        have hfind : findUser users uid = some u := by
          have hu2 : MwStep.next (some u) ∈ [MwStep.next (findUser users uid)] := hu
          simp only [List.mem_singleton, MwStep.next.injEq] at hu2
          exact hu2.symm
        exact List.mem_of_find?_eq_some hfind
    · rw [protect_no_bearer verify users h hc]
      exact ⟨rfl, Or.inl rfl, by simp⟩

theorem protect_single_outcome_witness :
    (protect sampleEnv.verify sampleEnv.users (some "Bearer bob-token")).length = 1 ∧
    (protect sampleEnv.verify sampleEnv.users (some "Bearer bob-token") =
        [MwStep.respond (msg 401 "Not authorized, no token")] ∨
      protect sampleEnv.verify sampleEnv.users (some "Bearer bob-token") =
        [MwStep.respond (msg 401 "Not authorized, token failed")] ∨
      ∃ h t uid, some "Bearer bob-token" = some h ∧ (splitSpace h.toList)[1]? = some t ∧
        sampleEnv.verify (String.mk t) = some uid ∧
        protect sampleEnv.verify sampleEnv.users (some "Bearer bob-token") =
          [MwStep.next (findUser sampleEnv.users uid)]) ∧
    (∀ u, MwStep.next (some u) ∈
        protect sampleEnv.verify sampleEnv.users (some "Bearer bob-token") →
      u ∈ sampleEnv.users) :=
  protect_single_outcome sampleEnv.verify sampleEnv.users (some "Bearer bob-token")
    (fun h hh _ _ => by
      cases hh
      exact ⟨"bob-token".toList, by decide, by decide⟩)

/-! ## C10: concurrent vote requests -/

example : (Conc.run false 10 twoVotes (Conc.init store0) racy).store =
    [{ redBlue with
       options := [{ _id := 100, optionText := "Red", votes := 1 },
                   { _id := 101, optionText := "Blue", votes := 0 }]
       voters := [3] }] := by decide

example : (Conc.run true 10 twoVotes (Conc.init store0) racy).store = store1 := by decide

example : (Conc.run true 10 twoVotes (Conc.init store0) (serial 2)).store =
    [{ redBlue with
       options := [{ _id := 100, optionText := "Red", votes := 1 },
                   { _id := 101, optionText := "Blue", votes := 1 }]
       voters := [1, 3] }] := by decide

/-- The handler `castVote`, run without interruption, is its read part followed at once
by its save part, whichever behaviour `save` has on a changed document. -/
theorem castVote_eq_read_then_save (versionCheck : Bool) (now : Int) (user : Option User)
    (id optionId : ObjectId) (st : Store) :
    castVote now user id optionId st =
      match castVoteRead now user id optionId st with
      | Except.error resp => { response := resp, store := st, events := [], mail := none }
      | Except.ok pd => castVoteSave versionCheck pd st := by
  unfold castVote castVoteRead
  cases hS : findById st id with
  | none => rfl
  | some S =>
    have hSid : S._id = id := findById_id hS
    by_cases hdl : S.deadline < now
    · simp [hdl, reject, msg]
    · cases user with
      | none => simp [hdl, reject, msg]
      | some u =>
        by_cases hv : u._id ∈ S.voters
        · simp [hdl, hv, reject, msg]
        · cases ho : optionById S.options optionId with
          | none => simp [hdl, hv, ho, reject, msg]
          | some o =>
            have hS2 : findById st S._id = some S := by rw [hSid]; exact hS
            simp [hdl, hv, ho, castVoteSave, hS2]

/-- C10, as stated, fails: when Alice and Carol both read `redBlue` before either
saves, one vote is not recorded.  If `save` replaces the stored document, both are
answered 200 and the survey ends with Carol's document only (one voter, one vote); if
`save` checks that the document is unchanged, Carol is answered 500 and the survey
ends with Alice's vote only. -/
theorem concurrent_votes_lost_update :
    ¬ NoLostUpdates false ∧ ¬ NoLostUpdates true ∧
    isInterleaving 2 racy = true ∧
    ((Conc.run false 10 twoVotes (Conc.init store0) racy).store.map
        (fun s => (s.options.map (fun o => o.votes), s.voters)) = [([1, 0], [3])] ∧
      (Conc.run false 10 twoVotes (Conc.init store0) racy).responses.map
        (fun x => (x.1, x.2.status)) = [(0, 200), (1, 200)]) ∧
    ((Conc.run true 10 twoVotes (Conc.init store0) racy).store.map
        (fun s => (s.options.map (fun o => o.votes), s.voters)) = [([0, 1], [1])] ∧
      (Conc.run true 10 twoVotes (Conc.init store0) racy).responses.map
        (fun x => (x.1, x.2.status)) = [(0, 200), (1, 500)]) := by
  refine ⟨?_, ?_, by decide, by decide, by decide⟩
  · intro h
    obtain ⟨S', hS', hlen, -⟩ := h twoVotes 10 store0 redBlue racy (by decide)
      (by decide) (by decide) (by decide)
    have hfin : findById (Conc.run false 10 twoVotes (Conc.init store0) racy).store 10 =
        some { redBlue with
          options := [{ _id := 100, optionText := "Red", votes := 1 },
                      { _id := 101, optionText := "Blue", votes := 0 }]
          voters := [3] } := by decide
    rw [hfin] at hS'
    cases hS'
    exact absurd hlen (by decide)
  · intro h
    obtain ⟨S', hS', hlen, -⟩ := h twoVotes 10 store0 redBlue racy (by decide)
      (by decide) (by decide) (by decide)
    have hfin : findById (Conc.run true 10 twoVotes (Conc.init store0) racy).store 10 =
        some redBlueVoted := by decide
    rw [hfin] at hS'
    cases hS'
    exact absurd hlen (by decide)

theorem incVotes_ids (opts : List OptionDoc) (x : ObjectId) :
    (incVotes opts x).map (fun o => o._id) = opts.map (fun o => o._id) := by
  induction opts with
  | nil => rfl
  | cons o rest ih =>
    by_cases hx : o._id = x
    · simp [incVotes, hx]
    · simp [incVotes, hx, ih]

theorem optionById_isSome_iff (opts : List OptionDoc) (y : ObjectId) :
    (optionById opts y).isSome = true ↔ y ∈ opts.map (fun o => o._id) := by
  simp only [optionById, List.find?_isSome, List.mem_map, beq_iff_eq]

theorem optionById_incVotes_isSome (opts : List OptionDoc) (x y : ObjectId) :
    (optionById (incVotes opts x) y).isSome = (optionById opts y).isSome := by
  rw [Bool.eq_iff_iff, optionById_isSome_iff, optionById_isSome_iff, incVotes_ids]

/-- A read part followed at once by the save part of the same request, on a survey
that passes the four checks: the store receives the updated document and the request
is answered 200. -/
theorem read_then_save_step (vc : Bool) (id : ObjectId) (reqs : List VoteReq) (c : Conc)
    (k : Nat) (r : VoteReq) (Sc : Survey) (o : OptionDoc)
    (hget : reqs[k]? = some r) (hS : findById c.store id = some Sc)
    (hdl : ¬ Sc.deadline < r.now) (hv : r.user._id ∉ Sc.voters)
    (ho : optionById Sc.options r.optionId = some o) :
    (Conc.step vc id reqs (Conc.step vc id reqs c (Op.read k)) (Op.save k)).store =
      save c.store { Sc with options := incVotes Sc.options r.optionId,
                             voters := Sc.voters ++ [r.user._id] } ∧
    (Conc.step vc id reqs (Conc.step vc id reqs c (Op.read k)) (Op.save k)).responses =
      c.responses ++ [(k, ⟨200, Body.survey
        { Sc with options := incVotes Sc.options r.optionId,
                  voters := Sc.voters ++ [r.user._id] }⟩)] := by
  have hSid : Sc._id = id := findById_id hS
  have hS2 : findById c.store Sc._id = some Sc := by rw [hSid]; exact hS
  have hread : castVoteRead r.now (some r.user) id r.optionId c.store =
      Except.ok
        { loaded := Sc
          updated := { Sc with options := incVotes Sc.options r.optionId,
                               voters := Sc.voters ++ [r.user._id] }
          mail := { email := r.user.email
                    subject := "Your Vote Has Been Recorded!"
                    surveyTitle := Sc.title
                    optionText := o.optionText } } := by
    simp [castVoteRead, hS, hdl, hv, ho]
  simp [Conc.step, hget, hread, castVoteSave, hS2]

theorem serial_run (vc : Bool) (id : ObjectId) (reqs : List VoteReq) :
    ∀ (rest done : List VoteReq) (c : Conc) (Sc : Survey),
      reqs = done ++ rest → findById c.store id = some Sc →
      (∀ r ∈ rest, ¬ Sc.deadline < r.now ∧ r.user._id ∉ Sc.voters ∧
        (optionById Sc.options r.optionId).isSome) →
      (rest.map (fun r => r.user._id)).Nodup →
      ∃ S', findById (Conc.run vc id reqs c
            (serialFrom done.length rest.length)).store id = some S' ∧
        S'.voters = Sc.voters ++ rest.map (fun r => r.user._id) ∧
        totalVotes S'.options = totalVotes Sc.options + rest.length ∧
        (Conc.run vc id reqs c (serialFrom done.length rest.length)).responses.map
            (fun x => x.2.status) =
          c.responses.map (fun x => x.2.status) ++ List.replicate rest.length 200 := by
  intro rest
  induction rest with
  | nil =>
    intro done c Sc _ hS _ _
    exact ⟨Sc, by simpa [serialFrom, Conc.run] using hS, by simp, by simp,
      by simp [serialFrom, Conc.run]⟩
  | cons r rest ih =>
    intro done c Sc hreq hS hall hnd
    obtain ⟨hdl, hv, hopt⟩ := hall r (List.mem_cons_self r rest)
    obtain ⟨o, ho⟩ := Option.isSome_iff_exists.mp hopt
    have hget : reqs[done.length]? = some r := by
      rw [hreq, List.getElem?_append_right (Nat.le_refl _)]
      simp
    obtain ⟨hstore, hresp⟩ := read_then_save_step vc id reqs c done.length r Sc o
      hget hS hdl hv ho
    have hnd' : (rest.map (fun r => r.user._id)).Nodup := (List.nodup_cons.mp hnd).2
    have hnotin : r.user._id ∉ rest.map (fun r => r.user._id) := (List.nodup_cons.mp hnd).1
    have hS' : findById
        (Conc.step vc id reqs (Conc.step vc id reqs c (Op.read done.length))
          (Op.save done.length)).store id =
        some { Sc with options := incVotes Sc.options r.optionId,
                       voters := Sc.voters ++ [r.user._id] } := by
      rw [hstore]
      exact findById_save_loaded hS _ rfl
    have key := ih (done ++ [r]) _ _ (by rw [hreq]; simp) hS'
    have key2 := key (by
      intro r' hr'
      obtain ⟨h1, h2, h3⟩ := hall r' (List.mem_cons_of_mem r hr')
      refine ⟨h1, ?_, ?_⟩
      · simp only [List.mem_append, List.mem_singleton, not_or]
        refine ⟨h2, ?_⟩
        intro heq
        exact hnotin (heq ▸ List.mem_map_of_mem (fun r => r.user._id) hr')
      · simpa [optionById_incVotes_isSome] using h3) hnd'
    obtain ⟨S', hfin, hvoters, htotal, hstatus⟩ := key2
    have hlen : (done ++ [r]).length = done.length + 1 := by simp
    rw [hlen] at hfin hstatus
    refine ⟨S', by simpa [serialFrom, Conc.run] using hfin, ?_, ?_, ?_⟩
    · rw [hvoters]; simp
    · rw [htotal, totalVotes_incVotes Sc.options r.optionId hopt]
      simp only [List.length_cons]
      omega
    · have : (Conc.run vc id reqs c (serialFrom done.length (r :: rest).length)) =
          Conc.run vc id reqs
            (Conc.step vc id reqs (Conc.step vc id reqs c (Op.read done.length))
              (Op.save done.length)) (serialFrom (done.length + 1) rest.length) := by
        simp [serialFrom, Conc.run]
      rw [this, hstatus, hresp]
      simp [List.replicate_succ]

theorem count_read_serialFrom (i : Nat) : ∀ (m k : Nat),
    (serialFrom k m).count (Op.read i) = if k ≤ i ∧ i < k + m then 1 else 0 := by
  intro m
  induction m with
  | zero =>
    intro k
    have h : ¬ (k ≤ i ∧ i < k + 0) := by omega
    rw [if_neg h]
    simp [serialFrom]
  | succ m ih =>
    intro k
    simp only [serialFrom, List.count_cons, ih (k + 1)]
    by_cases h : k = i
    · subst h
      have h1 : ¬ (k + 1 ≤ k ∧ k < k + 1 + m) := by omega
      have h2 : (k ≤ k ∧ k < k + (m + 1)) := by omega
      simp [h1, h2]
    · by_cases h3 : k + 1 ≤ i ∧ i < k + 1 + m
      · have h4 : k ≤ i ∧ i < k + (m + 1) := by omega
        simp [h, h3, h4]
      · have h4 : ¬ (k ≤ i ∧ i < k + (m + 1)) := by omega
        simp [h, h3, h4]

theorem count_save_serialFrom (i : Nat) : ∀ (m k : Nat),
    (serialFrom k m).count (Op.save i) = if k ≤ i ∧ i < k + m then 1 else 0 := by
  intro m
  induction m with
  | zero =>
    intro k
    have h : ¬ (k ≤ i ∧ i < k + 0) := by omega
    rw [if_neg h]
    simp [serialFrom]
  | succ m ih =>
    intro k
    simp only [serialFrom, List.count_cons, ih (k + 1)]
    by_cases h : k = i
    · subst h
      have h1 : ¬ (k + 1 ≤ k ∧ k < k + 1 + m) := by omega
      have h2 : (k ≤ k ∧ k < k + (m + 1)) := by omega
      simp [h1, h2]
    · by_cases h3 : k + 1 ≤ i ∧ i < k + 1 + m
      · have h4 : k ≤ i ∧ i < k + (m + 1) := by omega
        simp [h, h3, h4]
      · have h4 : ¬ (k ≤ i ∧ i < k + (m + 1)) := by omega
        simp [h, h3, h4]

theorem indexOf_serialFrom (i : Nat) : ∀ (m k : Nat), k ≤ i → i < k + m →
    (serialFrom k m).indexOf (Op.read i) = 2 * (i - k) ∧
    (serialFrom k m).indexOf (Op.save i) = 2 * (i - k) + 1 := by
  intro m
  induction m with
  | zero => intro k h1 h2; omega
  | succ m ih =>
    intro k h1 h2
    by_cases h : k = i
    · subst h
      simp [serialFrom, List.indexOf_cons]
    · obtain ⟨ih1, ih2⟩ := ih (k + 1) (by omega) (by omega)
      have e1 : (Op.read k == Op.read i) = false := by
        rw [beq_eq_false_iff_ne]; simpa using h
      have e2 : (Op.save k == Op.read i) = false := by
        rw [beq_eq_false_iff_ne]; simp
      have e3 : (Op.read k == Op.save i) = false := by
        rw [beq_eq_false_iff_ne]; simp
      have e4 : (Op.save k == Op.save i) = false := by
        rw [beq_eq_false_iff_ne]; simpa using h
      simp only [serialFrom, List.indexOf_cons, ih1, ih2, e1, e2, e3, e4, cond_false]
      omega

theorem serialFrom_bound : ∀ (m k : Nat) (op : Op), op ∈ serialFrom k m →
    (match op with
      | Op.read i => decide (i < k + m)
      | Op.save i => decide (i < k + m)) = true := by
  intro m
  induction m with
  | zero => intro k op h; simp [serialFrom] at h
  | succ m ih =>
    intro k op h
    simp only [serialFrom, List.mem_cons] at h
    rcases h with h | h | h
    · subst h; simp
    · subst h; simp
    · have := ih (k + 1) op h
      cases op with
      | read i => simp at this ⊢; omega
      | save i => simp at this ⊢; omega

/-- The serial schedule is one of the interleavings. -/
theorem isInterleaving_serial (n : Nat) : isInterleaving n (serial n) = true := by
  unfold isInterleaving serial
  rw [Bool.and_eq_true, List.all_eq_true, List.all_eq_true]
  refine ⟨?_, ?_⟩
  · intro i hi
    have hi' : i < n := List.mem_range.mp hi
    have hc : 0 ≤ i ∧ i < 0 + n := by omega
    obtain ⟨h1, h2⟩ := indexOf_serialFrom i n 0 (by omega) (by omega)
    simp [count_read_serialFrom, count_save_serialFrom, hc, h1, h2, hi']
  · intro op hop
    have := serialFrom_bound n 0 op hop
    cases op with
    | read i => simpa using this
    | save i => simpa using this

/-- C10, amended: for every `N`, `N` `castVote` requests from `N` distinct principals on
the same unexpired survey, none of whom has voted and each naming an option of the
survey, under the interleaving in which they take effect one after the other (each
request saves before the next one reads; the schedule `serial N`), are all answered
200 and leave the survey with exactly `N` voters added, the ids of the callers in
order, and exactly `N` vote increments in total, whichever behaviour `save` has on a
changed document. -/
theorem serial_votes_all_recorded (vc : Bool) (reqs : List VoteReq) (id : ObjectId)
    (st : Store) (S : Survey) (hS : findById st id = some S)
    (hall : ∀ r ∈ reqs, ¬ S.deadline < r.now ∧ r.user._id ∉ S.voters ∧
      (optionById S.options r.optionId).isSome)
    (hnd : (reqs.map (fun r => r.user._id)).Nodup) :
    isInterleaving reqs.length (serial reqs.length) = true ∧
    ∃ S', findById (Conc.run vc id reqs (Conc.init st) (serial reqs.length)).store id =
        some S' ∧
      S'.voters = S.voters ++ reqs.map (fun r => r.user._id) ∧
      S'.voters.length = S.voters.length + reqs.length ∧
      totalVotes S'.options = totalVotes S.options + reqs.length ∧
      (Conc.run vc id reqs (Conc.init st) (serial reqs.length)).responses.map
        (fun x => x.2.status) = List.replicate reqs.length 200 := by
  obtain ⟨S', hfin, hvoters, htotal, hstatus⟩ :=
    serial_run vc id reqs reqs [] (Conc.init st) S rfl hS hall hnd
  refine ⟨isInterleaving_serial reqs.length, S', hfin, hvoters, ?_, htotal, ?_⟩
  · rw [hvoters]; simp
  · simpa [Conc.init] using hstatus

theorem serial_votes_all_recorded_witness :
    isInterleaving twoVotes.length (serial twoVotes.length) = true ∧
    ∃ S', findById (Conc.run true 10 twoVotes (Conc.init store0)
        (serial twoVotes.length)).store 10 = some S' ∧
      S'.voters = redBlue.voters ++ twoVotes.map (fun r => r.user._id) ∧
      S'.voters.length = redBlue.voters.length + twoVotes.length ∧
      totalVotes S'.options = totalVotes redBlue.options + twoVotes.length ∧
      (Conc.run true 10 twoVotes (Conc.init store0) (serial twoVotes.length)).responses.map
        (fun x => x.2.status) = List.replicate twoVotes.length 200 :=
  serial_votes_all_recorded true twoVotes 10 store0 redBlue (by decide) (by decide)
    (by decide)

end VotingApp
